import Mathlib

/-!
Shallow embedding of the player/NPC collision-resolution engine and two
per-actor tick functions of the doukutsu-rs fork under verification:
`src/player/player_hit.rs`, `src/npc/booster.rs`, `src/npc/boss/balfrog.rs`.
Positions and velocities are `isize` values in the source; they are embedded
as `Int`.  `usize`/`u16` fields are embedded as `Nat`.  Bit-set types whose
defining module (`common.rs`) is not among the provided sources are embedded
as structures with one `Bool` field per accessor name that the sources use.
-/

namespace D2

/-- Facing direction of an entity (`common::Direction`).  The defining module
is not among the provided sources; the spec lists the variants
Left/Up/Right/Bottom/FacingPlayer. -/
inductive Direction where
  | left
  | up
  | right
  | bottom
  | facingPlayer
deriving DecidableEq, Repr

/-- Modelled from the spec: `Direction::vector_x` (common.rs is not under
src/) maps a facing to its unit x component; only Left and Right are
horizontal. -/
def Direction.vectorX : Direction → Int
  | .left => -1
  | .right => 1
  | _ => 0

/-- Caret (cosmetic particle) kinds used by the embedded sources. -/
inductive CaretType where
  | levelUp
  | questionMark
  | projectileDissipation
deriving DecidableEq, Repr

/-- Rectangle of four independent half-extents (`common::Rect<usize>`). -/
structure Rect where
  left : Nat
  top : Nat
  right : Nat
  bottom : Nat
deriving DecidableEq, Repr

/-- Modelled from the spec: the ephemeral flag-result bitset (`common::Flag`,
common.rs is not under src/).  Only the four wall-contact bits are ever set
by the collision judges; the bitwise OR used by the source is embedded as the
pointwise disjunction of the four bits. -/
structure Flag where
  hit_left_wall : Bool
  hit_right_wall : Bool
  hit_top_wall : Bool
  hit_bottom_wall : Bool
deriving DecidableEq, Repr

/-- The all-clear flag value `Flag(0)`. -/
def Flag.zero : Flag := ⟨false, false, false, false⟩

/-- Bitwise OR of two flag-results (`self.flags.0 |= flags.0`). -/
def Flag.or (a b : Flag) : Flag :=
  ⟨a.hit_left_wall || b.hit_left_wall,
   a.hit_right_wall || b.hit_right_wall,
   a.hit_top_wall || b.hit_top_wall,
   a.hit_bottom_wall || b.hit_bottom_wall⟩

/-- Nonzero test `flags.0 != 0` on a flag-result produced by a judge (only
the four wall bits can be set there). -/
def Flag.any (f : Flag) : Bool :=
  f.hit_left_wall || f.hit_right_wall || f.hit_top_wall || f.hit_bottom_wall

/-- Modelled from the spec: the per-entity condition bitset
(`common::Condition`, common.rs is not under src/).  The provided sources use
four distinct accessors: `alive`, `interacted`, `damage_boss` (the spec's
boss damage-routing bit) and `drs_boss` (the spec's "boss-shielded" marker
that gates the pickup side-effect dispatch); each is embedded as its own
bit. -/
structure Condition where
  alive : Bool
  interacted : Bool
  damage_boss : Bool
  drs_boss : Bool
deriving DecidableEq, Repr

/-- NPC capability bitset (`common::NPCFlag`); one `Bool` per accessor used
by the provided sources. -/
structure NpcFlags where
  solid_soft : Bool
  solid_hard : Bool
  bouncy : Bool
  interactable : Bool
  event_when_touched : Bool
  rear_and_top_not_hurt : Bool
  shootable : Bool
  invulnerable : Bool
  ignore_solidity : Bool
  event_when_killed : Bool
  show_damage : Bool
deriving DecidableEq, Repr

/-- Actor record: the fields of `npc::NPC` read or written by
`tick_npc_collision` and the collision judges. -/
structure NPC where
  npc_type : Nat
  x : Int
  y : Int
  vel_x : Int
  vel_y : Int
  direction : Direction
  hit_bounds : Rect
  npc_flags : NpcFlags
  cond : Condition
  exp : Nat
  damage : Nat
  event_num : Nat
deriving DecidableEq, Repr

/-- Player control modes distinguished by the collision code. -/
inductive ControlMode where
  | normal
  | ironHead
deriving DecidableEq, Repr

/-- Equipment bits of the player read by the collision code. -/
structure Equip where
  has_whimsical_star : Bool
deriving DecidableEq, Repr

/-- Player record: the fields of `player::Player` read or written by
`tick_npc_collision` and the collision judges. -/
structure Player where
  x : Int
  y : Int
  vel_x : Int
  vel_y : Int
  hit_bounds : Rect
  flags : Flag
  cond : Condition
  control_mode : ControlMode
  question : Bool
  equip : Equip
  stars : Nat
  life : Nat
  max_life : Nat
deriving DecidableEq, Repr

/-- Observable side effects emitted during a collision or actor tick. -/
inductive Event where
  | playSfx (id : Nat)
  | createCaret (x : Int) (y : Int) (ty : CaretType) (dir : Direction)
  | damage (amount : Nat)
  | startScript (event_num : Nat)
  | spawnNpc (npc_type : Nat)
  | quake (frames : Nat)
deriving DecidableEq, Repr

/-! ## Collaborator models

`Inventory::add_xp` (inventory.rs) and `Player::damage` (the player module
internals) are not among the provided sources; they are modelled from the
spec below. -/

/-- Outcome variants of `Inventory::add_xp` as matched on by
`tick_npc_collision`. -/
inductive AddExperienceResult where
  | none
  | levelUp
  | addStar
deriving DecidableEq, Repr

/-- Modelled from the spec: the inventory collaborator.  Per the spec,
experience pickups increase the player's stored experience and "may emit
level-up/star-bonus effects"; the stored experience, the next level-up
threshold and a max-level marker (star bonus source) are the state. -/
structure Inventory where
  xp : Nat
  level_up_at : Nat
  max_level : Bool
deriving DecidableEq, Repr

/-- Modelled from the spec: `Inventory::add_xp` (inventory.rs is not under
src/).  It adds the granted experience to the stored experience and reports
a level-up when the threshold is crossed, or a star grant when already at
max level. -/
def Inventory.add_xp (inv : Inventory) (amount : Nat) : Inventory × AddExperienceResult :=
  let inv' : Inventory := { inv with xp := inv.xp + amount }
  if inv.max_level then (inv', .addStar)
  else if inv.xp < inv.level_up_at ∧ inv.level_up_at ≤ inv.xp + amount then (inv', .levelUp)
  else (inv', .none)

/-- Modelled from the spec: `Player::damage` (the player module internals are
not under src/).  Per the spec it applies contact damage to the entity with
health clamped at zero (saturating, never wrapping); the call is recorded as
a damage event.  `Nat` subtraction is the clamped decrease. -/
def playerDamage (p : Player) (amount : Nat) : Player × List Event :=
  ({ p with life := p.life - amount }, [Event.damage amount])

/-- Saturating `u16` addition (`u16::saturating_add`) on the `life`/`exp`
fields. -/
def u16SatAdd (a b : Nat) : Nat := min (a + b) 65535

/-! ## `judge_hit_npc_solid_soft` (player_hit.rs lines 93-146) -/

/-- Left-wall block condition of the solid-soft judge (lines 96-99). -/
def softLeftCond (p : Player) (npc : NPC) : Prop :=
  p.y - (p.hit_bounds.top : Int) < npc.y + (npc.hit_bounds.bottom : Int) - 3 * 0x200 ∧
  p.y + (p.hit_bounds.top : Int) > npc.y - (npc.hit_bounds.bottom : Int) + 3 * 0x200 ∧
  p.x - (p.hit_bounds.right : Int) < npc.x + (npc.hit_bounds.right : Int) ∧
  p.x - (p.hit_bounds.right : Int) > npc.x

instance (p : Player) (npc : NPC) : Decidable (softLeftCond p npc) := by
  unfold softLeftCond; infer_instance

/-- Right-wall block condition of the solid-soft judge (lines 107-110). -/
def softRightCond (p : Player) (npc : NPC) : Prop :=
  p.y - (p.hit_bounds.top : Int) < npc.y + (npc.hit_bounds.bottom : Int) - 3 * 0x200 ∧
  p.y + (p.hit_bounds.top : Int) > npc.y - (npc.hit_bounds.bottom : Int) + 3 * 0x200 ∧
  p.x + (p.hit_bounds.right : Int) - 0x200 > npc.x - (npc.hit_bounds.right : Int) ∧
  p.x + (p.hit_bounds.right : Int) - 0x200 < npc.x

instance (p : Player) (npc : NPC) : Decidable (softRightCond p npc) := by
  unfold softRightCond; infer_instance

/-- Top-wall block condition of the solid-soft judge (lines 119-122). -/
def softTopCond (p : Player) (npc : NPC) : Prop :=
  p.x - (p.hit_bounds.right : Int) < npc.x + (npc.hit_bounds.right : Int) - 3 * 0x200 ∧
  p.x + (p.hit_bounds.right : Int) > npc.x - (npc.hit_bounds.right : Int) + 3 * 0x200 ∧
  p.y - (p.hit_bounds.top : Int) < npc.y + (npc.hit_bounds.bottom : Int) ∧
  p.y - (p.hit_bounds.top : Int) > npc.y

instance (p : Player) (npc : NPC) : Decidable (softTopCond p npc) := by
  unfold softTopCond; infer_instance

/-- Bottom-wall (landing) block condition of the solid-soft judge
(lines 130-133). -/
def softBottomCond (p : Player) (npc : NPC) : Prop :=
  p.x - (p.hit_bounds.right : Int) < npc.x + (npc.hit_bounds.right : Int) - 3 * 0x200 ∧
  p.x + (p.hit_bounds.right : Int) > npc.x - (npc.hit_bounds.right : Int) + 3 * 0x200 ∧
  p.y + (p.hit_bounds.bottom : Int) - 0x200 > npc.y - (npc.hit_bounds.top : Int) ∧
  p.y + (p.hit_bounds.bottom : Int) - 0x200 < npc.y + 3 * 0x200

instance (p : Player) (npc : NPC) : Decidable (softBottomCond p npc) := by
  unfold softBottomCond; infer_instance

/-- Solid-soft left-wall block (lines 96-105). -/
def softStepLeft (npc : NPC) (s : Player × Flag) : Player × Flag :=
  let p := s.1
  if softLeftCond p npc then
    ({ p with vel_x := if p.vel_x < 0x200 then p.vel_x + 0x200 else p.vel_x },
     { s.2 with hit_left_wall := true })
  else s

/-- Solid-soft right-wall block (lines 107-116). -/
def softStepRight (npc : NPC) (s : Player × Flag) : Player × Flag :=
  let p := s.1
  if softRightCond p npc then
    ({ p with vel_x := if p.vel_x > -0x200 then p.vel_x - 0x200 else p.vel_x },
     { s.2 with hit_right_wall := true })
  else s

/-- Solid-soft top-wall block (lines 119-128). -/
def softStepTop (npc : NPC) (s : Player × Flag) : Player × Flag :=
  let p := s.1
  if softTopCond p npc then
    ({ p with vel_y := if p.vel_y < 0 then 0 else p.vel_y },
     { s.2 with hit_top_wall := true })
  else s

/-- Solid-soft bottom-wall (landing) block (lines 130-143). -/
def softStepBottom (npc : NPC) (s : Player × Flag) : Player × Flag :=
  let p := s.1
  if softBottomCond p npc then
    if npc.npc_flags.bouncy then
      ({ p with vel_y := npc.vel_y - 0x200 }, { s.2 with hit_bottom_wall := true })
    else if p.flags.hit_bottom_wall = false ∧ p.vel_y > npc.vel_y then
      ({ p with
          y := npc.y - (npc.hit_bounds.top : Int) - (p.hit_bounds.bottom : Int) + 0x200,
          vel_y := npc.vel_y,
          x := p.x + npc.vel_x },
       { s.2 with hit_bottom_wall := true })
    else s
  else s

/-- `Player::judge_hit_npc_solid_soft`: the four blocks applied in source
order to the running player state, starting from `Flag(0)`. -/
def judgeHitNpcSolidSoft (p : Player) (npc : NPC) : Player × Flag :=
  softStepBottom npc (softStepTop npc (softStepRight npc (softStepLeft npc (p, Flag.zero))))

/-! ## `judge_hit_npc_solid_hard` (player_hit.rs lines 148-222)

The axis-selecting slope comparison is performed by the source in `f32`:
the absolute center offsets and the NPC half-extents are converted with
`as f32` (round to nearest, ties to even) and the two quotients are IEEE
binary32 divisions (correctly rounded) compared exactly.  It is embedded
below as integer arithmetic on (significand, exponent) pairs denoting the
value `m * 2^(e-23)`: `f32Mant a b` is the binary32 rounding of the
nonnegative rational `a / b` (so `f32Mant n 1` is the `as f32` conversion
and rounding the exact quotient of two represented values is the IEEE
division).  On every input reachable from the source's 64-bit integers the
quotients lie strictly inside the binary32 normal finite range, so no
overflow, underflow or subnormal behaviour arises and this value-level
model coincides with IEEE binary32. -/

/-- Structurally recursive computation of `Nat.log2` (the first argument is
fuel), so that the kernel can evaluate it on literals. -/
def natLog2Aux : Nat → Nat → Nat
  | 0, _ => 0
  | fuel + 1, n => if 2 ≤ n then natLog2Aux fuel (n / 2) + 1 else 0

/-- `⌊log2 n⌋` (0 for `n = 0`), kernel-computable. -/
def natLog2 (n : Nat) : Nat := natLog2Aux n n

/-- Exact integer test for `2^e ≤ a / b` (with `b ≥ 1`). -/
def twoPowLe (e : Int) (a b : Nat) : Bool :=
  if 0 ≤ e then decide (b * 2 ^ e.toNat ≤ a) else decide (b ≤ a * 2 ^ (-e).toNat)

/-- `⌊log2 (a / b)⌋` for `a, b ≥ 1`. -/
def ratFloorLog2 (a b : Nat) : Int :=
  let e0 : Int := (natLog2 a : Int) - (natLog2 b : Int)
  if twoPowLe e0 a b then e0 else e0 - 1

/-- Binary32 rounding (round to nearest, ties to even) of the nonnegative
rational `a / b`: the result `(m, e)` denotes the value `m * 2^(e-23)` with
`m` in `[2^23, 2^24]`, or `(0, 0)` for `a = 0`.  The fraction is scaled so
the significand grid is the integers, the scaled value is split into floor
and remainder, and the remainder decides the rounding direction with ties
broken to the even significand. -/
def f32Mant (a b : Nat) : Nat × Int :=
  if a = 0 then (0, 0)
  else
    let e := ratFloorLog2 a b
    let sh : Int := 23 - e
    let n : Nat := if 0 ≤ sh then a * 2 ^ sh.toNat else a
    let d : Nat := if 0 ≤ sh then b else b * 2 ^ (-sh).toNat
    let fl := n / d
    let r2 := 2 * (n % d)
    let m : Nat :=
      if d < r2 then fl + 1
      else if r2 < d then fl
      else if fl % 2 = 0 then fl else fl + 1
    (m, e)

/-- The rational value denoted by a (significand, exponent) pair. -/
def fpairVal (x : Nat × Int) : ℚ := (x.1 : ℚ) * (2:ℚ) ^ (x.2 - 23)

/-- Exact comparison of the values denoted by two pairs (the `f32`
comparison of the represented numbers). -/
def fpairLe (x y : Nat × Int) : Bool :=
  if x.2 ≤ y.2 then decide (x.1 ≤ y.1 * 2 ^ (y.2 - x.2).toNat)
  else decide (x.1 * 2 ^ (x.2 - y.2).toNat ≤ y.1)

/-- IEEE binary32 division of two represented values: the exact quotient,
written as a ratio of naturals by shifting with the exponent difference, is
rounded back to the significand grid. -/
def fpairDiv (x y : Nat × Int) : Nat × Int :=
  if y.2 ≤ x.2 then f32Mant (x.1 * 2 ^ (x.2 - y.2).toNat) y.1
  else f32Mant x.1 (y.1 * 2 ^ (y.2 - x.2).toNat)

/-- Axis selection of the solid-hard judge (lines 151-160): the absolute
center offsets and the NPC's right/top half-extents are converted to
binary32, the sentinel 1.0 replaces a zero `fx1` or `fx2`, and horizontal
resolution is chosen when the correctly-rounded quotient `fy1 / fx1` does
not exceed the correctly-rounded quotient `fy2 / fx2`. -/
def hardSlopeHorizontal (p : Player) (npc : NPC) : Bool :=
  let fx1 := f32Mant (p.x - npc.x).natAbs 1
  let fy1 := f32Mant (p.y - npc.y).natAbs 1
  let fx2 := f32Mant npc.hit_bounds.right 1
  let fy2 := f32Mant npc.hit_bounds.top 1
  let fx1 := if fx1.1 = 0 then f32Mant 1 1 else fx1
  let fx2 := if fx2.1 = 0 then f32Mant 1 1 else fx2
  fpairLe (fpairDiv fy1 fx1) (fpairDiv fy2 fx2)

/-- Vertical-overlap gate of the horizontal branch (lines 161-162). -/
def hardYOverlap (p : Player) (npc : NPC) : Prop :=
  p.y - (p.hit_bounds.top : Int) < npc.y + (npc.hit_bounds.bottom : Int) ∧
  p.y + (p.hit_bounds.bottom : Int) > npc.y - (npc.hit_bounds.top : Int)

instance (p : Player) (npc : NPC) : Decidable (hardYOverlap p npc) := by
  unfold hardYOverlap; infer_instance

/-- Left push-out condition (lines 163-164). -/
def hardLeftCond (p : Player) (npc : NPC) : Prop :=
  p.x - (p.hit_bounds.right : Int) < npc.x + (npc.hit_bounds.right : Int) ∧
  p.x - (p.hit_bounds.right : Int) > npc.x

instance (p : Player) (npc : NPC) : Decidable (hardLeftCond p npc) := by
  unfold hardLeftCond; infer_instance

/-- Right push-out condition (lines 173-174). -/
def hardRightCond (p : Player) (npc : NPC) : Prop :=
  p.x + (p.hit_bounds.right : Int) > npc.x - (npc.hit_bounds.right : Int) ∧
  p.x + (p.hit_bounds.right : Int) < npc.x

instance (p : Player) (npc : NPC) : Decidable (hardRightCond p npc) := by
  unfold hardRightCond; infer_instance

/-- Horizontal-overlap gate of the vertical branch (lines 183-184). -/
def hardXOverlap (p : Player) (npc : NPC) : Prop :=
  p.x - (p.hit_bounds.right : Int) < npc.x + (npc.hit_bounds.right : Int) ∧
  p.x + (p.hit_bounds.right : Int) > npc.x - (npc.hit_bounds.right : Int)

instance (p : Player) (npc : NPC) : Decidable (hardXOverlap p npc) := by
  unfold hardXOverlap; infer_instance

/-- Ceiling-hit condition (lines 185-186). -/
def hardTopCond (p : Player) (npc : NPC) : Prop :=
  p.y - (p.hit_bounds.top : Int) < npc.y + (npc.hit_bounds.bottom : Int) ∧
  p.y - (p.hit_bounds.top : Int) > npc.y

instance (p : Player) (npc : NPC) : Decidable (hardTopCond p npc) := by
  unfold hardTopCond; infer_instance

/-- Floor/landing condition (lines 199-200). -/
def hardBottomCond (p : Player) (npc : NPC) : Prop :=
  p.y + (p.hit_bounds.bottom : Int) > npc.y - (npc.hit_bounds.top : Int) ∧
  p.y + (p.hit_bounds.bottom : Int) < npc.y + 3 * 0x200

instance (p : Player) (npc : NPC) : Decidable (hardBottomCond p npc) := by
  unfold hardBottomCond; infer_instance

/-- Solid-hard left push-out (lines 163-171). -/
def hardStepLeft (npc : NPC) (s : Player × Flag) : Player × Flag :=
  let p := s.1
  if hardLeftCond p npc then
    ({ p with
        vel_x := if p.vel_x < npc.vel_x then npc.vel_x else p.vel_x,
        x := npc.x + (npc.hit_bounds.right : Int) + (p.hit_bounds.right : Int) },
     { s.2 with hit_left_wall := true })
  else s

/-- Solid-hard right push-out (lines 173-181). -/
def hardStepRight (npc : NPC) (s : Player × Flag) : Player × Flag :=
  let p := s.1
  if hardRightCond p npc then
    ({ p with
        vel_x := if p.vel_x > npc.vel_x then npc.vel_x else p.vel_x,
        x := npc.x - (npc.hit_bounds.right : Int) - (p.hit_bounds.right : Int) },
     { s.2 with hit_right_wall := true })
  else s

/-- Solid-hard ceiling hit (lines 185-197). -/
def hardStepTop (npc : NPC) (s : Player × Flag) : Player × Flag :=
  let p := s.1
  if hardTopCond p npc then
    (if p.vel_y ≥ npc.vel_y then
       { p with vel_y := if p.vel_y < 0 then 0 else p.vel_y }
     else
       { p with
           y := npc.y + (npc.hit_bounds.bottom : Int) + (p.hit_bounds.top : Int) + 0x200,
           vel_y := npc.vel_y },
     { s.2 with hit_top_wall := true })
  else s

/-- Solid-hard floor/landing (lines 199-218), with the landing sound effect
and the IronHead (drill/charge) override. -/
def hardStepBottom (npc : NPC) (s : Player × Flag) : Player × Flag × List Event :=
  let p := s.1
  if hardBottomCond p npc then
    let ev : List Event := if p.vel_y - npc.vel_y > 2 * 0x200 then [.playSfx 23] else []
    if p.control_mode = ControlMode.ironHead then
      ({ p with
          y := npc.y - (npc.hit_bounds.top : Int) - (p.hit_bounds.bottom : Int) + 0x200 },
       { s.2 with hit_bottom_wall := true }, ev)
    else if npc.npc_flags.bouncy then
      ({ p with vel_y := npc.vel_y - 0x200 }, { s.2 with hit_bottom_wall := true }, ev)
    else if p.flags.hit_bottom_wall = false ∧ p.vel_y > npc.vel_y then
      ({ p with
          y := npc.y - (npc.hit_bounds.top : Int) - (p.hit_bounds.bottom : Int) + 0x200,
          vel_y := npc.vel_y,
          x := p.x + npc.vel_x },
       { s.2 with hit_bottom_wall := true }, ev)
    else (p, s.2, ev)
  else (p, s.2, [])

/-- `Player::judge_hit_npc_solid_hard`: axis selection, then either the two
horizontal push-outs or the ceiling/floor pair, in source order. -/
def judgeHitNpcSolidHard (p : Player) (npc : NPC) : Player × Flag × List Event :=
  if hardSlopeHorizontal p npc then
    if hardYOverlap p npc then
      let s := hardStepRight npc (hardStepLeft npc (p, Flag.zero))
      (s.1, s.2, [])
    else (p, Flag.zero, [])
  else if hardXOverlap p npc then
    hardStepBottom npc (hardStepTop npc (p, Flag.zero))
  else (p, Flag.zero, [])

/-! ## `judge_hit_npc_non_solid` (player_hit.rs lines 224-237) -/

/-- Overlap test of the non-solid judge: the NPC's hit half-extents (the
horizontal pair mirrored unless the NPC faces Left) expanded by the fixed
2-pixel margin `2 * 0x200` on all four sides. -/
def nonSolidOverlap (p : Player) (npc : NPC) : Prop :=
  let hit_left : Int :=
    if npc.direction = Direction.left then npc.hit_bounds.left else npc.hit_bounds.right
  let hit_right : Int :=
    if npc.direction = Direction.left then npc.hit_bounds.right else npc.hit_bounds.left
  p.x + 2 * 0x200 > npc.x - hit_left ∧
  p.x - 2 * 0x200 < npc.x + hit_right ∧
  p.y + 2 * 0x200 > npc.y - (npc.hit_bounds.top : Int) ∧
  p.y - 2 * 0x200 < npc.y + (npc.hit_bounds.bottom : Int)

instance (p : Player) (npc : NPC) : Decidable (nonSolidOverlap p npc) := by
  unfold nonSolidOverlap; infer_instance

/-- `Player::judge_hit_npc_non_solid`: touch-only; produces the touched
signal (encoded on the `hit_left_wall` bit) and leaves the player
untouched. -/
def judgeHitNpcNonSolid (p : Player) (npc : NPC) : Player × Flag :=
  (p, if nonSolidOverlap p npc then { Flag.zero with hit_left_wall := true } else Flag.zero)

/-! ## `tick_npc_collision` (player_hit.rs lines 239-318) -/

/-- The world-state bits of `SharedGameState` read or written by
`tick_npc_collision`: the control flags and the scripting executor
identity. -/
structure CollisionCtx where
  control_enabled : Bool
  interactions_disabled : Bool
  tick_world : Bool
  executor : Nat
deriving DecidableEq, Repr

/-- Result of one `tick_npc_collision` call. -/
structure TickResult where
  player : Player
  npc : NPC
  ctx : CollisionCtx
  inv : Inventory
  events : List Event
deriving DecidableEq, Repr

/-- Regime selection and flag merge (lines 240-250): solid-soft, else
solid-hard, else non-solid; the flag-result of the two solid regimes is
ORed into the player's persistent flags. -/
def collisionStage (p : Player) (npc : NPC) : Player × Flag × List Event :=
  if npc.npc_flags.solid_soft then
    let r := judgeHitNpcSolidSoft p npc
    ({ r.1 with flags := Flag.or r.1.flags r.2 }, r.2, [])
  else if npc.npc_flags.solid_hard then
    let r := judgeHitNpcSolidHard p npc
    ({ r.1 with flags := Flag.or r.1.flags r.2.1 }, r.2.1, r.2.2)
  else
    let r := judgeHitNpcNonSolid p npc
    (r.1, r.2, [])

/-- The ephemeral flag-result computed by `tick_npc_collision` for a given
player/NPC pair. -/
def collisionFlags (p : Player) (npc : NPC) : Flag :=
  (collisionStage p npc).2.1

/-- Type-tagged pickup dispatch (lines 252-287), gated on a nonzero
flag-result and a clear `drs_boss` bit. -/
def pickupStage (p : Player) (npc : NPC) (inv : Inventory) (fl : Flag) :
    Player × NPC × Inventory × List Event :=
  if !npc.cond.drs_boss && Flag.any fl then
    if npc.npc_type = 1 then
      let r := inv.add_xp npc.exp
      let evL : List Event :=
        match r.2 with
        | .none => []
        | .levelUp => [.playSfx 27, .createCaret p.x p.y CaretType.levelUp Direction.left]
        | .addStar => []
      let p' : Player :=
        match r.2 with
        | .addStar =>
          if p.equip.has_whimsical_star ∧ p.stars < 3 then { p with stars := p.stars + 1 }
          else p
        | _ => p
      (p', { npc with cond := { npc.cond with alive := false } }, r.1,
       Event.playSfx 14 :: evL)
    else if npc.npc_type = 86 then
      (p, { npc with cond := { npc.cond with alive := false } }, inv, [.playSfx 42])
    else if npc.npc_type = 87 then
      ({ p with life := min p.max_life (u16SatAdd p.life npc.exp) },
       { npc with cond := { npc.cond with alive := false } }, inv, [.playSfx 20])
    else (p, npc, inv, [])
  else (p, npc, inv, [])

/-- Interactable script hand-off (lines 289-297). -/
def interactStage (id : Nat) (p : Player) (npc : NPC) (ctx : CollisionCtx) (fl : Flag) :
    Player × CollisionCtx × List Event :=
  if npc.npc_flags.interactable && !ctx.interactions_disabled && Flag.any fl
      && p.cond.interacted then
    ({ p with cond := { p.cond with interacted := false }, vel_x := 0, question := false },
     { ctx with tick_world := true, interactions_disabled := true, executor := id },
     [.startScript npc.event_num])
  else (p, ctx, [])

/-- Event-when-touched script hand-off (lines 299-304). -/
def touchEventStage (id : Nat) (npc : NPC) (ctx : CollisionCtx) (fl : Flag) :
    CollisionCtx × List Event :=
  if npc.npc_flags.event_when_touched && !ctx.interactions_disabled && Flag.any fl then
    ({ ctx with tick_world := true, interactions_disabled := true, executor := id },
     [.startScript npc.event_num])
  else (ctx, [])

/-- Frontal-contact test of the rear-and-top-not-hurt branch (lines
308-311): the contact side set in the flag-result opposes the sign of the
NPC's own velocity on that axis. -/
def frontalContact (fl : Flag) (npc : NPC) : Bool :=
  (fl.hit_left_wall && decide (npc.vel_x > 0)) ||
  (fl.hit_right_wall && decide (npc.vel_x < 0)) ||
  (fl.hit_top_wall && decide (npc.vel_y > 0)) ||
  (fl.hit_bottom_wall && decide (npc.vel_y < 0))

/-- Contact-damage branch (lines 306-317). -/
def damageStage (p : Player) (npc : NPC) (ctx : CollisionCtx) (fl : Flag) :
    Player × List Event :=
  if ctx.control_enabled && !npc.npc_flags.interactable then
    if npc.npc_flags.rear_and_top_not_hurt then
      if frontalContact fl npc then playerDamage p npc.damage else (p, [])
    else if Flag.any fl && decide (npc.damage ≠ 0) && !ctx.interactions_disabled then
      playerDamage p npc.damage
    else (p, [])
  else (p, [])

/-- `Player::tick_npc_collision`: judge and merge, pickup dispatch, the two
script hand-offs, then contact damage, threading the player, NPC, world
bits and inventory in source order. -/
def tickNpcCollision (id : Nat) (p : Player) (npc : NPC) (ctx : CollisionCtx)
    (inv : Inventory) : TickResult :=
  let c := collisionStage p npc
  let fl := c.2.1
  let pk := pickupStage c.1 npc inv fl
  let ia := interactStage id pk.1 pk.2.1 ctx fl
  let te := touchEventStage id pk.2.1 ia.2.1 fl
  let dm := damageStage ia.1 pk.2.1 te.1 fl
  { player := dm.1, npc := pk.2.1, ctx := te.1, inv := pk.2.2.1,
    events := c.2.2 ++ pk.2.2.2 ++ ia.2.2 ++ te.2 ++ dm.2 }

/-- The damage amounts among a list of events, in order. -/
def damageEvents (es : List Event) : List Nat :=
  es.filterMap fun e => match e with | .damage n => some n | _ => none

/-! ## `tick_n113_professor_booster` (booster.rs lines 8-93) -/

/-- Increment of a `u16` counter field (wraps at 2^16). -/
def inc16 (n : Nat) : Nat := (n + 1) % 65536

/-- Saturating `isize` subtraction (`isize::saturating_sub`), clamping at
the 64-bit minimum. -/
def isizeSatSub (a b : Int) : Int := max (a - b) (-(2 ^ 63))

/-- Modelled from the spec: `NPC::animate` (npc/mod.rs is not under src/)
advances only the animation counter/index pair: after `ticks` ticks the
index steps forward and wraps from past `last` back to `first`.  Returns
the new (index, counter). -/
def animate (ticks first last : Nat) (anim_num anim_counter : Nat) : Nat × Nat :=
  let c := inc16 anim_counter
  if c > ticks then
    (if anim_num + 1 > last then first else anim_num + 1, 0)
  else (anim_num, c)

/-- The fields of the NPC record read or written by
`tick_n113_professor_booster`.  The `flags` field carries the wall-contact
bits set for this NPC by the map-collision pass before the tick. -/
structure Booster where
  action_num : Nat
  action_counter : Nat
  anim_num : Nat
  anim_counter : Nat
  x : Int
  y : Int
  vel_y : Int
  direction : Direction
  hit_bounds : Rect
  flags : Flag
  anim_rect : Rect
deriving DecidableEq, Repr

/-- State-machine part of `tick_n113_professor_booster` (the `match` on
`action_num`).  The draw of `self.rng.range(0..120)` is supplied as the
input `draw` (the RNG stream, rng.rs, is not under src/). -/
def boosterMachine (draw : Int) (s : Booster) : Booster :=
  if s.action_num = 0 ∨ s.action_num = 1 then
    let s := if s.action_num = 0 then
        { s with action_num := 1, anim_num := 0, anim_counter := 0 } else s
    if draw = 10 then { s with action_num := 2, action_counter := 0, anim_num := 1 } else s
  else if s.action_num = 2 then
    let s := { s with action_counter := inc16 s.action_counter }
    if s.action_counter > 8 then { s with action_num := 1, anim_num := 0 } else s
  else if s.action_num = 3 ∨ s.action_num = 4 then
    let s := if s.action_num = 3 then
        { s with action_num := 4, anim_num := 2, anim_counter := 0 } else s
    let a := animate 5 2 5 s.anim_num s.anim_counter
    { s with anim_num := a.1, anim_counter := a.2,
             x := s.x + s.direction.vectorX * 0x200 }
  else if s.action_num = 5 then { s with anim_num := 6 }
  else if s.action_num = 30 ∨ s.action_num = 31 then
    let s := if s.action_num = 30 then
        { s with action_num := 31, anim_num := 0, anim_counter := 0,
                 hit_bounds := { s.hit_bounds with bottom := 16 * 0x200 },
                 x := s.x - 16 * 0x200, y := s.y + 8 * 0x200 } else s
    let s := { s with action_counter := inc16 s.action_counter }
    if s.action_counter = 64 then { s with action_num := 32, action_counter := 0 } else s
  else if s.action_num = 32 then
    let s := { s with action_counter := inc16 s.action_counter }
    if s.action_counter > 20 then
      { s with action_num := 33, anim_num := 1,
               hit_bounds := { s.hit_bounds with bottom := 8 * 0x200 } }
    else s
  else if s.action_num = 33 then
    if s.flags.hit_bottom_wall then
      { s with action_num := 34, action_counter := 0, anim_num := 0 } else s
  else s

/-- `tick_n113_professor_booster`: state machine, then gravity `+0x40` and
velocity integration (with no terminal-velocity clamp), then the animation
rectangle lookup (`tbl` supplies the constants table
`n113_professor_booster`) with the action-31 teleporter-beam tweak. -/
def boosterTick (tbl : Nat → Rect) (draw : Int) (s0 : Booster) : Booster :=
  let s := boosterMachine draw s0
  let s := { s with vel_y := s.vel_y + 0x40 }
  let s := { s with y := s.y + s.vel_y }
  let dir_offset := if s.direction = Direction.left then 0 else 7
  let s := { s with anim_rect := tbl (s.anim_num + dir_offset) }
  if s.action_num = 31 then
    let r := { s.anim_rect with bottom := s.action_counter / 4 + s.anim_rect.top }
    let r := if s.action_counter / 2 % 2 ≠ 0 then { r with left := r.left + 1 } else r
    { s with anim_rect := r }
  else s

/-! ## `tick_b02_balfrog` (balfrog.rs lines 36-546)

The boss is a composite of parts; the driver is `parts[0]`.  Where a branch
spawns NPCs whose initial fields draw from the boss's RNG stream (rng.rs,
not under src/) or, in state 113, from `f64` trigonometry, the spawn is
recorded as a `spawnNpc` event carrying the spawned NPC type; the driver's
own field updates never depend on those draws. -/

/-- The fields of a boss part record read or written by `tick_b02_balfrog`. -/
structure BossPart where
  x : Int
  y : Int
  vel_x : Int
  vel_y : Int
  vel_x2 : Int
  target_x : Int
  action_num : Nat
  action_counter : Nat
  action_counter2 : Nat
  anim_num : Nat
  anim_counter : Nat
  direction : Direction
  display_bounds : Rect
  hit_bounds : Rect
  size : Nat
  exp : Nat
  event_num : Nat
  life : Nat
  damage : Nat
  shock : Nat
  npc_flags : NpcFlags
  cond : Condition
  flags : Flag
  anim_rect : Rect
deriving DecidableEq, Repr

/-- The Balfrog composite: driver part 0, mouth part 1, body part 2, and
the per-part hurt sounds. -/
structure Balfrog where
  p0 : BossPart
  p1 : BossPart
  p2 : BossPart
  hurt_sound0 : Nat
  hurt_sound1 : Nat
  hurt_sound2 : Nat
deriving DecidableEq, Repr

/-- State-machine part of `tick_b02_balfrog` (the first `match`, on
`parts[0].action_num`).  `px` is the player's x position; `tbl` the
constants table `b02_balfrog`. -/
def balfrogMachine (tbl : Nat → Rect) (px : Int) (s : Balfrog) : Balfrog × List Event :=
  let a := s.p0.action_num
  if a = 0 then
    ({ s with
       hurt_sound0 := 52,
       p0 := { s.p0 with
               x := 6 * 16 * 0x200, y := 12 * 16 * 0x200,
               direction := Direction.right,
               display_bounds := ⟨48 * 0x200, 48 * 0x200, 32 * 0x200, 16 * 0x200⟩,
               hit_bounds := ⟨24 * 0x200, 16 * 0x200, 24 * 0x200, 16 * 0x200⟩,
               size := 3, exp := 1, event_num := 1000,
               npc_flags := { s.p0.npc_flags with
                              event_when_killed := true, show_damage := true },
               life := 300 } }, [])
  else if a = 10 then
    ({ s with
       p0 := { s.p0 with
               action_num := 11, anim_num := 3,
               cond := { s.p0.cond with alive := true }, anim_rect := tbl 9 },
       p1 := { s.p1 with
               cond := { s.p1.cond with alive := true, damage_boss := true },
               damage := 5 },
       p2 := { s.p2 with cond := { s.p2.cond with alive := true }, damage := 5 } },
     List.replicate 8 (.spawnNpc 4))
  else if a = 20 ∨ a = 21 then
    let p : BossPart := if a = 20 then { s.p0 with action_num := 21, action_counter := 0 } else s.p0
    let p := { p with action_counter := inc16 p.action_counter }
    let p : BossPart := if p.action_counter / 2 % 2 ≠ 0 then { p with anim_num := 3 }
             else { p with anim_num := 0 }
    ({ s with p0 := p }, [])
  else if a = 100 ∨ a = 101 then
    let p : BossPart := if a = 100 then
        { s.p0 with action_num := 101, action_counter := 0, anim_num := 1, vel_x := 0 }
      else s.p0
    let p := { p with action_counter := inc16 p.action_counter }
    let p : BossPart := if p.action_counter > 50 then
        { p with action_num := 102, anim_counter := 0, anim_num := 2 } else p
    ({ s with p0 := p }, [])
  else if a = 102 then
    let p : BossPart := { s.p0 with anim_counter := inc16 s.p0.anim_counter }
    let p : BossPart := if p.anim_counter > 10 then
        { p with action_num := 103, anim_counter := 0, anim_num := 1 } else p
    ({ s with p0 := p }, [])
  else if a = 103 then
    let p : BossPart := { s.p0 with anim_counter := inc16 s.p0.anim_counter }
    if p.anim_counter > 4 then
      ({ s with p0 := { p with
                        action_num := 104, anim_num := 5,
                        vel_x := p.direction.vectorX * 0x200, vel_y := -2 * 0x200,
                        display_bounds := { p.display_bounds with
                                            top := 64 * 0x200,
                                            bottom := 24 * 0x200 } } },
       [.playSfx 25])
    else ({ s with p0 := p }, [])
  else if a = 104 then
    let p := s.p0
    let p : BossPart := if p.direction = Direction.left ∧ p.flags.hit_left_wall then
        { p with direction := Direction.right, vel_x := 0x200 } else p
    let p : BossPart := if p.direction = Direction.right ∧ p.flags.hit_right_wall then
        { p with direction := Direction.left, vel_x := -0x200 } else p
    if p.flags.hit_bottom_wall then
      let p := { p with
                 action_num := 100, anim_num := 1,
                 display_bounds := { p.display_bounds with
                                     top := 48 * 0x200, bottom := 16 * 0x200 } }
      let p : BossPart := if p.direction = Direction.left ∧ p.x < px then
          { p with direction := Direction.right, action_num := 110 } else p
      let p : BossPart := if p.direction = Direction.right ∧ p.x > px then
          { p with direction := Direction.left, action_num := 110 } else p
      ({ s with p0 := p },
       .spawnNpc 110 :: List.replicate 4 (.spawnNpc 4) ++ [.quake 30, .playSfx 26])
    else ({ s with p0 := p }, [])
  else if a = 110 ∨ a = 111 then
    let p : BossPart := if a = 110 then
        { s.p0 with anim_num := 1, action_num := 111, action_counter := 0 } else s.p0
    let p := { p with action_counter := inc16 p.action_counter }
    let p := { p with vel_x := Int.tdiv (p.vel_x * 8) 9 }
    let p : BossPart := if p.action_counter > 50 then
        { p with anim_num := 2, anim_counter := 0, action_num := 112 } else p
    ({ s with p0 := p }, [])
  else if a = 112 then
    let p : BossPart := { s.p0 with anim_counter := inc16 s.p0.anim_counter }
    if p.anim_counter > 4 then
      ({ s with
         p0 := { p with
                 action_num := 113, action_counter := 0, vel_x2 := 16,
                 anim_num := 3, target_x := (p.life : Int) },
         p1 := { s.p1 with npc_flags := { s.p1.npc_flags with shootable := true } } },
       [])
    else ({ s with p0 := p }, [])
  else if a = 113 then
    let p := s.p0
    let p : BossPart := if p.shock ≠ 0 then
        (if p.action_counter2 / 2 % 2 ≠ 0 then { p with anim_num := 4 }
         else { p with anim_num := 3 })
      else { p with action_counter2 := 0, anim_num := 3 }
    let p := { p with vel_x := Int.tdiv (p.vel_x * 10) 11 }
    let p := { p with action_counter := inc16 p.action_counter }
    if p.action_counter > 16 then
      let p := { p with action_counter := 0, vel_x2 := isizeSatSub p.vel_x2 1 }
      let ev : List Event := [.spawnNpc 108, .playSfx 39]
      if p.vel_x2 = 0 ∨ (p.life : Int) < p.target_x - 90 then
        ({ s with
           p0 := { p with
                   action_num := 114, action_counter := 0, anim_num := 2,
                   anim_counter := 0 },
           p1 := { s.p1 with npc_flags := { s.p1.npc_flags with shootable := false } } },
         ev)
      else ({ s with p0 := p }, ev)
    else ({ s with p0 := p }, [])
  else if a = 114 then
    let p : BossPart := { s.p0 with anim_counter := inc16 s.p0.anim_counter }
    if p.anim_counter > 10 then
      let p := { p with anim_num := 1, anim_counter := 0 }
      let q1 : BossPart := { s.p1 with action_counter2 := inc16 s.p1.action_counter2 }
      if q1.action_counter2 > 2 then
          ({ s with
           p0 := { p with action_num := 120 },
           p1 := { q1 with action_counter2 := 0 } }, [])
      else ({ s with p0 := { p with action_num := 100 }, p1 := q1 }, [])
    else ({ s with p0 := p }, [])
  else if a = 120 ∨ a = 121 then
    let p : BossPart := if a = 120 then
        { s.p0 with action_num := 121, action_counter := 0, anim_num := 1, vel_x := 0 }
      else s.p0
    let p := { p with action_counter := inc16 p.action_counter }
    let p : BossPart := if p.action_counter > 50 then
        { p with action_num := 122, anim_num := 2, anim_counter := 0 } else p
    ({ s with p0 := p }, [])
  else if a = 122 then
    let p : BossPart := { s.p0 with anim_counter := inc16 s.p0.anim_counter }
    let p : BossPart := if p.anim_counter > 20 then
        { p with action_num := 123, anim_num := 1, anim_counter := 0 } else p
    ({ s with p0 := p }, [])
  else if a = 123 then
    let p : BossPart := { s.p0 with anim_counter := inc16 s.p0.anim_counter }
    if p.anim_counter > 4 then
      ({ s with p0 := { p with
                        action_num := 124, anim_num := 5, vel_x := -5 * 0x200,
                        display_bounds := { p.display_bounds with
                                            top := 64 * 0x200,
                                            bottom := 24 * 0x200 } } },
       [.playSfx 25])
    else ({ s with p0 := p }, [])
  else if a = 124 then
    if s.p0.flags.hit_bottom_wall then
      let p : BossPart := { s.p0 with
                 action_num := 100, anim_num := 1,
                 display_bounds := { s.p0.display_bounds with
                                     top := 48 * 0x200, bottom := 16 * 0x200 } }
      let p : BossPart := if p.direction = Direction.left ∧ p.x < px then
          { p with action_num := 110, direction := Direction.right } else p
      let p : BossPart := if p.direction = Direction.right ∧ p.x > px then
          { p with action_num := 110, direction := Direction.right } else p
      ({ s with p0 := p },
       List.replicate 2 (.spawnNpc 104) ++ List.replicate 6 (.spawnNpc 110) ++
       List.replicate 8 (.spawnNpc 4) ++ [.playSfx 26, .quake 60])
    else (s, [])
  else if a = 130 ∨ a = 131 then
    let se : Balfrog × List Event :=
      if a = 130 then
        ({ s with
           p0 := { s.p0 with
                   action_num := 131, action_counter := 0, anim_num := 3,
                   vel_x := 0 },
           p1 := { s.p1 with cond := { s.p1.cond with alive := false } },
           p2 := { s.p2 with cond := { s.p2.cond with alive := false } } },
         .playSfx 72 :: List.replicate 8 (.spawnNpc 4))
      else (s, [])
    let p : BossPart := { se.1.p0 with action_counter := inc16 se.1.p0.action_counter }
    let ev2 : List Event := if p.action_counter % 5 = 0 then [.spawnNpc 4] else []
    let p : BossPart := { p with
               x := p.x + (if p.action_counter / 2 % 2 ≠ 0 then -0x200 else 0x200) }
    let p : BossPart := if p.action_counter > 100 then
        { p with action_num := 132, action_counter := 0 } else p
    ({ se.1 with p0 := p }, se.2 ++ ev2)
  else if a = 132 then
    let p : BossPart := { s.p0 with action_counter := inc16 s.p0.action_counter }
    let p : BossPart := if p.action_counter / 2 % 2 ≠ 0 then
        { p with
          anim_num := 6,
          display_bounds := ⟨20 * 0x200, 12 * 0x200, 20 * 0x200, 12 * 0x200⟩ }
      else
        { p with
          anim_num := 3,
          display_bounds := ⟨48 * 0x200, 48 * 0x200, 32 * 0x200, 16 * 0x200⟩ }
    let ev : List Event := if p.action_counter % 9 = 0 then [.spawnNpc 4] else []
    let p : BossPart := if p.action_counter > 150 then
        { p with
          action_num := 140,
          hit_bounds := { p.hit_bounds with bottom := 12 * 0x200 } } else p
    ({ s with p0 := p }, ev)
  else if a = 140 ∨ a = 141 then
    let p : BossPart := if a = 140 then { s.p0 with action_num := 141 } else s.p0
    let p : BossPart := if p.flags.hit_bottom_wall then
        { p with action_num := 142, action_counter := 0, anim_num := 7 } else p
    ({ s with p0 := p }, [])
  else if a = 142 then
    let p : BossPart := { s.p0 with action_counter := inc16 s.p0.action_counter }
    if p.action_counter > 30 then
      ({ s with p0 := { p with
                        anim_num := 8, vel_y := -5 * 0x200,
                        npc_flags := { p.npc_flags with ignore_solidity := true },
                        action_num := 143 } }, [])
    else ({ s with p0 := p }, [])
  else if a = 143 then
    let p : BossPart := { s.p0 with vel_y := -5 * 0x200 }
    if p.y < 0 then
      ({ s with p0 := { p with cond := { p.cond with alive := false } } },
       [.playSfx 26, .quake 30])
    else ({ s with p0 := p }, [])
  else (s, [])

/-- Gravity, terminal-velocity clamp, velocity integration and the driver's
animation-rectangle lookup (balfrog.rs lines 483-492). -/
def balfrogPhysics (tbl : Nat → Rect) (s : Balfrog) : Balfrog :=
  let v := s.p0.vel_y + 0x40
  let v := if v > 0x5ff then 0x5ff else v
  let p : BossPart := { s.p0 with vel_y := v }
  let p := { p with x := p.x + p.vel_x, y := p.y + p.vel_y }
  let dir_offset := if p.direction = Direction.left then 0 else 9
  { s with p0 := { p with anim_rect := tbl (p.anim_num + dir_offset) } }

/-- Slaved-part positioning pass (balfrog.rs lines 494-545): parts 1 and 2
derive geometry from part 0's committed position and animation index. -/
def balfrogAttach (s : Balfrog) : Balfrog :=
  let n := s.p0.anim_num
  if n = 0 then
    { s with
      hurt_sound1 := 52, hurt_sound2 := 52,
      p1 := { s.p1 with
              size := 3,
              npc_flags := { s.p1.npc_flags with invulnerable := true },
              hit_bounds := ⟨16 * 0x200, 16 * 0x200, 16 * 0x200, 16 * 0x200⟩ },
      p2 := { s.p2 with
              size := 3,
              npc_flags := { s.p2.npc_flags with invulnerable := true },
              hit_bounds := ⟨24 * 0x200, 16 * 0x200, 24 * 0x200, 16 * 0x200⟩ } }
  else if n = 1 ∨ n = 2 ∨ n = 3 ∨ n = 4 ∨ n = 5 then
    let dy : Int := if n = 1 then 24 * 0x200 else if n = 2 then 20 * 0x200
                    else if n = 5 then 43 * 0x200 else 16 * 0x200
    { s with
      p1 := { s.p1 with
              x := s.p0.x + s.p0.direction.vectorX * 24 * 0x200,
              y := s.p0.y - dy },
      p2 := { s.p2 with x := s.p0.x, y := s.p0.y } }
  else s

/-- `tick_b02_balfrog`: the driver's state machine, then its
gravity/terminal-velocity/integration physics, then the slaved-part
positioning pass, with the emitted side effects. -/
def tickB02 (tbl : Nat → Rect) (px : Int) (s : Balfrog) : Balfrog × List Event :=
  let m := balfrogMachine tbl px s
  (balfrogAttach (balfrogPhysics tbl m.1), m.2)

/-- One Balfrog step viewed as a state transformer (events dropped). -/
def stepB02 (tbl : Nat → Rect) (px : Int) (s : Balfrog) : Balfrog :=
  (tickB02 tbl px s).1

/-- Truncating integer division as the spec words it: magnitude divided,
sign reattached, truncation toward zero (not rounding, not floor). -/
def truncDivSpec (a b : Int) : Int :=
  a.sign * b.sign * ((a.natAbs / b.natAbs : Nat) : Int)

/-! ## Concrete instances used to exercise the theorems -/

/-- All NPC capability bits clear. -/
def nf0 : NpcFlags := ⟨false, false, false, false, false, false, false, false, false, false, false⟩

/-- All condition bits clear. -/
def cond0 : Condition := ⟨false, false, false, false⟩

/-- The zero rectangle. -/
def rect0 : Rect := ⟨0, 0, 0, 0⟩

/-- A square hit box of 8-pixel half-extents. -/
def hb16 : Rect := ⟨0x1000, 0x1000, 0x1000, 0x1000⟩

/-- A trivial animation-rectangle table. -/
def tbl0 : Nat → Rect := fun _ => rect0

/-- A baseline player at the origin. -/
def basePlayer : Player :=
  ⟨0, 0, 0, 0, hb16, Flag.zero, cond0, ControlMode.normal, false, ⟨false⟩, 0, 10, 20⟩

/-- A falling player positioned over the platform NPC below. -/
def cexPlayerC1 : Player := { basePlayer with y := -0x1000, vel_y := 0x300 }

/-- A solid-soft platform NPC drifting right at 0x100/step. -/
def cexNpcC1 : NPC :=
  ⟨0, 0, 0, 0x100, 0, Direction.left, hb16, { nf0 with solid_soft := true }, cond0, 0, 0, 0⟩

/-- A non-solid rear-and-top-not-hurt NPC moving right, overlapping the
origin, with contact damage 5. -/
def cexNpcC2 : NPC :=
  ⟨0, 0, 0, 3, 0, Direction.left, hb16,
   { nf0 with rear_and_top_not_hurt := true }, { cond0 with alive := true }, 0, 5, 0⟩

/-- A world-bit state with control enabled and interactions allowed. -/
def ctxOn : CollisionCtx := ⟨true, false, false, 0⟩

/-- An inventory far below its next level-up threshold. -/
def inv0 : Inventory := ⟨0, 100, false⟩

/-- An experience pickup (type 1, exp 10) overlapping the origin. -/
def cexNpcC6 : NPC :=
  ⟨1, 0, 0, 0, 0, Direction.left, hb16, nf0, { cond0 with alive := true }, 10, 0, 0⟩

/-- The same experience pickup with the boss-shielded `drs_boss` bit set and
the `damage_boss` bit clear. -/
def cexNpcC6drs : NPC :=
  ⟨1, 0, 0, 0, 0, Direction.left, hb16, nf0,
   { cond0 with alive := true, drs_boss := true }, 10, 0, 0⟩

/-- A heart pickup (type 87, exp 10) overlapping the origin. -/
def cexNpcC8 : NPC :=
  ⟨87, 0, 0, 0, 0, Direction.left, hb16, nf0, { cond0 with alive := true }, 10, 0, 0⟩

/-- A baseline boss part. -/
def basePart : BossPart :=
  ⟨0, 0, 0, 0, 0, 0, 0, 0, 0, 0, 0, Direction.left, rect0, hb16, 0, 0, 0, 300, 0, 0,
   nf0, cond0, Flag.zero, rect0⟩

/-- A Balfrog whose driver has just been put into the enter-stomp code 100. -/
def balfrogB100 : Balfrog := ⟨{ basePart with action_num := 100 }, basePart, basePart, 0, 0, 0⟩

/-- A Balfrog whose driver sits in the settled hop-decay code 111 with a
negative horizontal velocity. -/
def balfrogB111 : Balfrog :=
  ⟨{ basePart with action_num := 111, vel_x := -100 }, basePart, basePart, 0, 0, 0⟩

/-- A booster already at the terminal velocity 0x5ff, in the idle-fly code 5. -/
def cexBoosterC4 : Booster :=
  ⟨5, 0, 0, 0, 0, 0, 0x5ff, Direction.left, hb16, Flag.zero, rect0⟩

/-- A player whose center offset from the NPC below is (14999999, 5000000)
fixed-point units: both binary32 quotients of the slope comparison round to
the same float although the exact quotients differ. -/
def cexPlayerC3 : Player := { basePlayer with x := 14999999, y := 5000000 }

/-- A solid-hard NPC at the origin with top half-extent 1 and right
half-extent 3. -/
def cexNpcC3 : NPC :=
  ⟨0, 0, 0, 0, 0, Direction.left, ⟨3, 1, 3, 1⟩,
   { nf0 with solid_hard := true }, cond0, 0, 0, 0⟩

/-! ## Preservation lemmas for the collision judges -/

theorem softStepLeft_inv (npc : NPC) (s : Player × Flag) :
    (softStepLeft npc s).1.x = s.1.x ∧ (softStepLeft npc s).1.y = s.1.y ∧
    (softStepLeft npc s).1.vel_y = s.1.vel_y ∧
    (softStepLeft npc s).1.flags = s.1.flags ∧
    (softStepLeft npc s).1.hit_bounds = s.1.hit_bounds ∧
    (softStepLeft npc s).1.life = s.1.life ∧
    (softStepLeft npc s).1.max_life = s.1.max_life ∧
    (softStepLeft npc s).1.control_mode = s.1.control_mode := by
  unfold softStepLeft
  by_cases h : softLeftCond s.1 npc <;> simp [h]

theorem softStepRight_inv (npc : NPC) (s : Player × Flag) :
    (softStepRight npc s).1.x = s.1.x ∧ (softStepRight npc s).1.y = s.1.y ∧
    (softStepRight npc s).1.vel_y = s.1.vel_y ∧
    (softStepRight npc s).1.flags = s.1.flags ∧
    (softStepRight npc s).1.hit_bounds = s.1.hit_bounds ∧
    (softStepRight npc s).1.life = s.1.life ∧
    (softStepRight npc s).1.max_life = s.1.max_life ∧
    (softStepRight npc s).1.control_mode = s.1.control_mode := by
  unfold softStepRight
  by_cases h : softRightCond s.1 npc <;> simp [h]

theorem softStepTop_inv (npc : NPC) (s : Player × Flag) :
    (softStepTop npc s).1.x = s.1.x ∧ (softStepTop npc s).1.y = s.1.y ∧
    (softStepTop npc s).1.flags = s.1.flags ∧
    (softStepTop npc s).1.hit_bounds = s.1.hit_bounds ∧
    (softStepTop npc s).1.life = s.1.life ∧
    (softStepTop npc s).1.max_life = s.1.max_life ∧
    (softStepTop npc s).1.control_mode = s.1.control_mode := by
  unfold softStepTop
  by_cases h : softTopCond s.1 npc <;> simp [h]

theorem softStepTop_vel_y (npc : NPC) (s : Player × Flag) (h : npc.vel_y < s.1.vel_y) :
    npc.vel_y < (softStepTop npc s).1.vel_y := by
  unfold softStepTop
  by_cases hc : softTopCond s.1 npc <;> simp only [hc, if_true, if_false]
  · split <;> omega
  · exact h

theorem softStepBottom_lands (npc : NPC) (s : Player × Flag)
    (h1 : softBottomCond s.1 npc) (h2 : npc.npc_flags.bouncy = false)
    (h3 : s.1.flags.hit_bottom_wall = false) (h4 : npc.vel_y < s.1.vel_y) :
    (softStepBottom npc s).1.y =
      npc.y - (npc.hit_bounds.top : Int) - (s.1.hit_bounds.bottom : Int) + 0x200 ∧
    (softStepBottom npc s).1.vel_y = npc.vel_y ∧
    (softStepBottom npc s).1.x = s.1.x + npc.vel_x ∧
    (softStepBottom npc s).2.hit_bottom_wall = true := by
  unfold softStepBottom
  rw [if_pos h1, h2]
  simp only [Bool.false_eq_true, if_false]
  rw [if_pos ⟨h3, h4⟩]
  simp

theorem softBottomCond_congr {p q : Player} (npc : NPC)
    (hx : p.x = q.x) (hy : p.y = q.y) (hh : p.hit_bounds = q.hit_bounds) :
    softBottomCond p npc ↔ softBottomCond q npc := by
  unfold softBottomCond
  rw [hx, hy, hh]

theorem softStepLeft_flag_bottom (npc : NPC) (s : Player × Flag) :
    (softStepLeft npc s).2.hit_bottom_wall = s.2.hit_bottom_wall := by
  unfold softStepLeft
  by_cases h : softLeftCond s.1 npc <;> simp [h]

theorem softStepRight_flag_bottom (npc : NPC) (s : Player × Flag) :
    (softStepRight npc s).2.hit_bottom_wall = s.2.hit_bottom_wall := by
  unfold softStepRight
  by_cases h : softRightCond s.1 npc <;> simp [h]

theorem softStepTop_flag_bottom (npc : NPC) (s : Player × Flag) :
    (softStepTop npc s).2.hit_bottom_wall = s.2.hit_bottom_wall := by
  unfold softStepTop
  by_cases h : softTopCond s.1 npc <;> simp [h]

theorem hardStepTop_inv (npc : NPC) (s : Player × Flag) (h : npc.vel_y < s.1.vel_y) :
    (hardStepTop npc s).1.x = s.1.x ∧ (hardStepTop npc s).1.y = s.1.y ∧
    (hardStepTop npc s).1.flags = s.1.flags ∧
    (hardStepTop npc s).1.hit_bounds = s.1.hit_bounds ∧
    (hardStepTop npc s).1.life = s.1.life ∧
    (hardStepTop npc s).1.max_life = s.1.max_life ∧
    (hardStepTop npc s).1.control_mode = s.1.control_mode ∧
    npc.vel_y < (hardStepTop npc s).1.vel_y ∧
    (hardStepTop npc s).2.hit_bottom_wall = s.2.hit_bottom_wall := by
  unfold hardStepTop
  dsimp only
  by_cases hc : hardTopCond s.1 npc
  · rw [if_pos hc, if_pos (show s.1.vel_y >= npc.vel_y by omega)]
    refine ⟨rfl, rfl, rfl, rfl, rfl, rfl, rfl, ?_, rfl⟩
    dsimp only
    split <;> omega
  · rw [if_neg hc]
    exact ⟨rfl, rfl, rfl, rfl, rfl, rfl, rfl, h, rfl⟩

theorem hardStepBottom_lands (npc : NPC) (s : Player × Flag)
    (h1 : hardBottomCond s.1 npc) (hm : s.1.control_mode = ControlMode.normal)
    (h2 : npc.npc_flags.bouncy = false)
    (h3 : s.1.flags.hit_bottom_wall = false) (h4 : npc.vel_y < s.1.vel_y) :
    (hardStepBottom npc s).1.y =
      npc.y - (npc.hit_bounds.top : Int) - (s.1.hit_bounds.bottom : Int) + 0x200 ∧
    (hardStepBottom npc s).1.vel_y = npc.vel_y ∧
    (hardStepBottom npc s).1.x = s.1.x + npc.vel_x ∧
    (hardStepBottom npc s).2.1.hit_bottom_wall = true := by
  unfold hardStepBottom
  rw [if_pos h1, hm]
  simp only [reduceCtorEq, if_false, h2, Bool.false_eq_true]
  rw [if_pos ⟨h3, h4⟩]
  simp

theorem hardBottomCond_congr {p q : Player} (npc : NPC)
    (hy : p.y = q.y) (hh : p.hit_bounds = q.hit_bounds) :
    hardBottomCond p npc ↔ hardBottomCond q npc := by
  unfold hardBottomCond
  rw [hy, hh]

/-! ## Claim C1 -/

/-- C1, counterexample: in a solid-soft bottom contact with every hypothesis
of the claim satisfied (non-bouncy platform, `hit_bottom_wall` clear,
downward velocity exceeding the platform's), the judgment snaps the
position and copies the vertical velocity but leaves the player's
horizontal velocity at 0, not equal to the platform's 0x100: the claim's
"velocity exactly equal to the NPC's velocity" is false for the horizontal
component. -/
theorem spec_c1_counterexample :
    cexNpcC1.npc_flags.solid_soft = true ∧
    cexNpcC1.npc_flags.bouncy = false ∧
    cexPlayerC1.flags.hit_bottom_wall = false ∧
    cexNpcC1.vel_y < cexPlayerC1.vel_y ∧
    (judgeHitNpcSolidSoft cexPlayerC1 cexNpcC1).2.hit_bottom_wall = true ∧
    (judgeHitNpcSolidSoft cexPlayerC1 cexNpcC1).1.vel_y = cexNpcC1.vel_y ∧
    (judgeHitNpcSolidSoft cexPlayerC1 cexNpcC1).1.y =
      cexNpcC1.y - (cexNpcC1.hit_bounds.top : Int) -
        (cexPlayerC1.hit_bounds.bottom : Int) + 0x200 ∧
    ¬ (judgeHitNpcSolidSoft cexPlayerC1 cexNpcC1).1.vel_x = cexNpcC1.vel_x := by
  decide

/-- C1, amended: in a solid-soft or solid-hard bottom contact against a
non-bouncy NPC, with the player not already grounded, falling faster than
the NPC and not in the IronHead control mode, the step ends with the player
snapped flush to the NPC's top bound plus the 0x200 epsilon, the player's
vertical velocity equal to the NPC's, the player's x position advanced by
the NPC's horizontal velocity (carried, rather than inheriting `vel_x`),
and the `hit_bottom_wall` bit set in the flag-result. -/
theorem spec_c1_platform_riding (p : Player) (npc : NPC)
    (hb : npc.npc_flags.bouncy = false)
    (hw : p.flags.hit_bottom_wall = false)
    (hv : npc.vel_y < p.vel_y)
    (hm : p.control_mode = ControlMode.normal)
    (hreg : (npc.npc_flags.solid_soft = true ∧ softBottomCond p npc) ∨
            (npc.npc_flags.solid_soft = false ∧ npc.npc_flags.solid_hard = true ∧
             hardSlopeHorizontal p npc = false ∧ hardXOverlap p npc ∧
             hardBottomCond p npc)) :
    (collisionStage p npc).1.y =
      npc.y - (npc.hit_bounds.top : Int) - (p.hit_bounds.bottom : Int) + 0x200 ∧
    (collisionStage p npc).1.vel_y = npc.vel_y ∧
    (collisionStage p npc).1.x = p.x + npc.vel_x ∧
    (collisionStage p npc).2.1.hit_bottom_wall = true := by
  rcases hreg with ⟨hss, hcond⟩ | ⟨hss, hsh, hslope, hxo, hcond⟩
  · obtain ⟨lx, ly, lv, lf, lh, -, -, -⟩ := softStepLeft_inv npc (p, Flag.zero)
    obtain ⟨rx, ry, rv, rf, rh, -, -, -⟩ :=
      softStepRight_inv npc (softStepLeft npc (p, Flag.zero))
    obtain ⟨tx, ty, tf, th, -, -, -⟩ :=
      softStepTop_inv npc (softStepRight npc (softStepLeft npc (p, Flag.zero)))
    have hvel : npc.vel_y <
        (softStepTop npc (softStepRight npc (softStepLeft npc (p, Flag.zero)))).1.vel_y := by
      apply softStepTop_vel_y
      rw [rv, lv]; exact hv
    have hx3 : (softStepTop npc (softStepRight npc
        (softStepLeft npc (p, Flag.zero)))).1.x = p.x := by rw [tx, rx, lx]
    have hy3 : (softStepTop npc (softStepRight npc
        (softStepLeft npc (p, Flag.zero)))).1.y = p.y := by rw [ty, ry, ly]
    have hh3 : (softStepTop npc (softStepRight npc
        (softStepLeft npc (p, Flag.zero)))).1.hit_bounds = p.hit_bounds := by
      rw [th, rh, lh]
    have hf3 : (softStepTop npc (softStepRight npc
        (softStepLeft npc (p, Flag.zero)))).1.flags = p.flags := by rw [tf, rf, lf]
    have hc3 : softBottomCond (softStepTop npc (softStepRight npc
        (softStepLeft npc (p, Flag.zero)))).1 npc :=
      (softBottomCond_congr npc hx3 hy3 hh3).mpr hcond
    obtain ⟨B1, B2, B3, B4⟩ :=
      softStepBottom_lands npc _ hc3 hb (by rw [hf3]; exact hw) hvel
    rw [hh3] at B1
    rw [hx3] at B3
    unfold collisionStage
    rw [if_pos hss]
    unfold judgeHitNpcSolidSoft
    exact ⟨B1, B2, B3, B4⟩
  · obtain ⟨Tx, Ty, Tf, Th, -, -, Tcm, Tvel, -⟩ := hardStepTop_inv npc (p, Flag.zero) hv
    have hc2 : hardBottomCond (hardStepTop npc (p, Flag.zero)).1 npc :=
      (hardBottomCond_congr npc Ty Th).mpr hcond
    obtain ⟨B1, B2, B3, B4⟩ := hardStepBottom_lands npc _ hc2
      (by rw [Tcm]; exact hm) hb (by rw [Tf]; exact hw) Tvel
    rw [Th] at B1
    rw [Tx] at B3
    unfold collisionStage
    rw [if_neg (by simp [hss]), if_pos hsh]
    unfold judgeHitNpcSolidHard
    rw [if_neg (by simp [hslope]), if_pos hxo]
    exact ⟨B1, B2, B3, B4⟩

/-- C1, witness: the amended theorem applied at the concrete solid-soft
platform-riding contact. -/
theorem spec_c1_witness :
    (collisionStage cexPlayerC1 cexNpcC1).1.y =
      cexNpcC1.y - (cexNpcC1.hit_bounds.top : Int) -
        (cexPlayerC1.hit_bounds.bottom : Int) + 0x200 ∧
    (collisionStage cexPlayerC1 cexNpcC1).1.vel_y = cexNpcC1.vel_y ∧
    (collisionStage cexPlayerC1 cexNpcC1).1.x = cexPlayerC1.x + cexNpcC1.vel_x ∧
    (collisionStage cexPlayerC1 cexNpcC1).2.1.hit_bottom_wall = true :=
  spec_c1_platform_riding cexPlayerC1 cexNpcC1 rfl rfl (by decide) rfl
    (Or.inl ⟨rfl, by decide⟩)

/-! ## Correctness lemmas of the binary32 model -/

theorem natLog2Aux_eq (fuel n : Nat) (h : n ≤ fuel) : natLog2Aux fuel n = Nat.log2 n := by
  induction fuel generalizing n with
  | zero =>
    have hn : n = 0 := by omega
    subst hn
    simp [natLog2Aux, Nat.log2]
  | succ fuel ih =>
    unfold natLog2Aux
    by_cases h2 : 2 ≤ n
    · rw [if_pos h2, ih (n / 2) (by omega)]
      conv_rhs => rw [Nat.log2]
      rw [if_pos (h2 : n ≥ 2)]
    · rw [if_neg h2]
      conv_rhs => rw [Nat.log2]
      rw [if_neg (h2 : ¬ n ≥ 2)]

theorem natLog2_eq (n : Nat) : natLog2 n = Nat.log2 n := natLog2Aux_eq n n le_rfl

theorem natLog2_le (n : Nat) (h : n ≠ 0) : 2 ^ natLog2 n ≤ n := by
  rw [natLog2_eq]
  exact (Nat.le_log2 h).mp (Nat.le_refl _)

theorem natLog2_gt (n : Nat) (h : n ≠ 0) : n < 2 ^ (natLog2 n + 1) := by
  rw [natLog2_eq]
  exact (Nat.log2_lt h).mp (Nat.lt_succ_self _)

theorem ratFloorLog2_lb (a b : Nat) (ha : a ≠ 0) (hb : b ≠ 0) :
    twoPowLe (ratFloorLog2 a b) a b = true := by
  unfold ratFloorLog2
  dsimp only
  by_cases h : twoPowLe ((natLog2 a : Int) - (natLog2 b : Int)) a b = true
  · rw [if_pos h]; exact h
  · rw [if_neg h]
    have hla := natLog2_le a ha
    have hlb := natLog2_gt b hb
    unfold twoPowLe
    by_cases hs : (0:Int) ≤ (natLog2 a : Int) - (natLog2 b : Int) - 1
    · rw [if_pos hs]
      simp only [decide_eq_true_eq]
      calc b * 2 ^ ((natLog2 a : Int) - (natLog2 b : Int) - 1).toNat
          ≤ 2 ^ (natLog2 b + 1) * 2 ^ ((natLog2 a : Int) - (natLog2 b : Int) - 1).toNat :=
            Nat.mul_le_mul_right _ (le_of_lt hlb)
        _ = 2 ^ natLog2 a := by rw [← pow_add]; congr 1; omega
        _ ≤ a := hla
    · rw [if_neg hs]
      simp only [decide_eq_true_eq]
      calc b ≤ 2 ^ (natLog2 b + 1) := le_of_lt hlb
        _ = 2 ^ natLog2 a * 2 ^ (-((natLog2 a : Int) - (natLog2 b : Int) - 1)).toNat := by
            rw [← pow_add]; congr 1; omega
        _ ≤ a * 2 ^ (-((natLog2 a : Int) - (natLog2 b : Int) - 1)).toNat :=
            Nat.mul_le_mul_right _ hla

theorem f32Mant_fst_eq_zero (a b : Nat) (hb : b ≠ 0) :
    (f32Mant a b).1 = 0 ↔ a = 0 := by
  constructor
  · intro hm
    by_contra ha
    have hlb := ratFloorLog2_lb a b ha hb
    unfold f32Mant at hm
    rw [if_neg ha] at hm
    dsimp only at hm
    unfold twoPowLe at hlb
    set e := ratFloorLog2 a b with he
    have hdn : (if 0 ≤ 23 - e then b else b * 2 ^ (-(23 - e)).toNat) ≤
        (if 0 ≤ 23 - e then a * 2 ^ (23 - e).toNat else a) := by
      by_cases hsh : (0:Int) ≤ 23 - e
      · rw [if_pos hsh, if_pos hsh]
        by_cases hε : (0:Int) ≤ e
        · rw [if_pos hε] at hlb
          simp only [decide_eq_true_eq] at hlb
          calc b ≤ b * 2 ^ e.toNat :=
                Nat.le_mul_of_pos_right _ (Nat.pos_pow_of_pos _ (by norm_num))
            _ ≤ a := hlb
            _ ≤ a * 2 ^ (23 - e).toNat :=
                Nat.le_mul_of_pos_right _ (Nat.pos_pow_of_pos _ (by norm_num))
        · rw [if_neg hε] at hlb
          simp only [decide_eq_true_eq] at hlb
          calc b ≤ a * 2 ^ (-e).toNat := hlb
            _ ≤ a * 2 ^ (23 - e).toNat := by
                apply Nat.mul_le_mul_left
                apply Nat.pow_le_pow_right (by norm_num)
                omega
      · rw [if_neg hsh, if_neg hsh]
        have hε : (0:Int) ≤ e := by omega
        rw [if_pos hε] at hlb
        simp only [decide_eq_true_eq] at hlb
        calc b * 2 ^ (-(23 - e)).toNat ≤ b * 2 ^ e.toNat := by
              apply Nat.mul_le_mul_left
              apply Nat.pow_le_pow_right (by norm_num)
              omega
          _ ≤ a := hlb
    set n := (if 0 ≤ 23 - e then a * 2 ^ (23 - e).toNat else a) with hn
    set d := (if 0 ≤ 23 - e then b else b * 2 ^ (-(23 - e)).toNat) with hd
    have hd0 : d ≠ 0 := by
      rw [hd]
      by_cases hsh : (0:Int) ≤ 23 - e
      · simpa [hsh]
      · simp only [hsh, if_false]
        positivity
    have hfl : 1 ≤ n / d := (Nat.one_le_div_iff (Nat.pos_of_ne_zero hd0)).mpr hdn
    split_ifs at hm <;> omega
  · intro ha
    subst ha
    simp [f32Mant]

theorem f32Mant_zero_fst (b : Nat) : (f32Mant 0 b).1 = 0 := by
  simp [f32Mant]

theorem fpairLe_iff (x y : Nat × Int) : fpairLe x y = true ↔ fpairVal x ≤ fpairVal y := by
  unfold fpairLe fpairVal
  by_cases h : x.2 ≤ y.2
  · rw [if_pos h]
    simp only [decide_eq_true_eq]
    rw [show ((2:ℚ) ^ (y.2 - 23)) = (2:ℚ) ^ (y.2 - x.2) * 2 ^ (x.2 - 23) by
      rw [← zpow_add₀ (two_ne_zero)]; congr 1; omega]
    rw [← mul_assoc, mul_le_mul_right (zpow_pos (by norm_num) _)]
    rw [show ((2:ℚ) ^ (y.2 - x.2)) = ((2 ^ (y.2 - x.2).toNat : Nat) : ℚ) by
      rw [Nat.cast_pow, Nat.cast_ofNat, ← zpow_natCast]; congr 1; omega]
    exact_mod_cast Iff.rfl
  · rw [if_neg h]
    simp only [decide_eq_true_eq]
    rw [show ((2:ℚ) ^ (x.2 - 23)) = (2:ℚ) ^ (x.2 - y.2) * 2 ^ (y.2 - 23) by
      rw [← zpow_add₀ (two_ne_zero)]; congr 1; omega]
    rw [← mul_assoc, mul_le_mul_right (zpow_pos (by norm_num) _)]
    rw [show ((2:ℚ) ^ (x.2 - y.2)) = ((2 ^ (x.2 - y.2).toNat : Nat) : ℚ) by
      rw [Nat.cast_pow, Nat.cast_ofNat, ← zpow_natCast]; congr 1; omega]
    exact_mod_cast Iff.rfl

/-! ## Claim C3 -/

/-- C3, counterexample: at center offsets (14999999, 5000000) against top
half-extent 1 and right half-extent 3 (no sentinel applies), both binary32
quotients of the slope comparison round to the same float
(11184811 * 2^-25), so the judge selects horizontal resolution, although
the exact quotient 5000000/14999999 strictly exceeds 1/3: the claim's
"horizontal resolution fires iff |dy|/|dx| <= top/right" is false at this
input. -/
theorem spec_c3_counterexample :
    cexPlayerC3.x ≠ cexNpcC3.x ∧
    cexNpcC3.hit_bounds.right ≠ 0 ∧
    hardSlopeHorizontal cexPlayerC3 cexNpcC3 = true ∧
    ¬ (((|cexPlayerC3.y - cexNpcC3.y| : Int) : ℚ) /
          ((|cexPlayerC3.x - cexNpcC3.x| : Int) : ℚ) ≤
        (cexNpcC3.hit_bounds.top : ℚ) / (cexNpcC3.hit_bounds.right : ℚ)) := by
  refine ⟨by decide, by decide, by decide, ?_⟩
  have h1 : ((|cexPlayerC3.y - cexNpcC3.y| : Int) : ℚ) = 5000000 := by
    norm_num [cexPlayerC3, cexNpcC3, basePlayer]
  have h2 : ((|cexPlayerC3.x - cexNpcC3.x| : Int) : ℚ) = 14999999 := by
    norm_num [cexPlayerC3, cexNpcC3, basePlayer]
  have h3 : (cexNpcC3.hit_bounds.top : ℚ) = 1 := by norm_num [cexNpcC3]
  have h4 : (cexNpcC3.hit_bounds.right : ℚ) = 3 := by norm_num [cexNpcC3]
  rw [h1, h2, h3, h4, div_le_div_iff₀ (by norm_num) (by norm_num)]
  norm_num

/-- C3, amended: the solid-hard axis selection is decided by the binary32
slope comparison alone: horizontal resolution fires iff the value of the
correctly-rounded f32 quotient of the absolute center offsets does not
exceed the value of the correctly-rounded f32 quotient of the NPC's top
and right half-extents, with the sentinel 1.0 substituted when the
horizontal center distance or the right half-extent is zero; and the
choice is invariant under arbitrary changes to either party's
velocities. -/
theorem spec_c3_axis_selection (p : Player) (npc : NPC) :
    (hardSlopeHorizontal p npc = true ↔
      fpairVal (fpairDiv (f32Mant (p.y - npc.y).natAbs 1)
          (if p.x = npc.x then f32Mant 1 1 else f32Mant (p.x - npc.x).natAbs 1)) ≤
        fpairVal (fpairDiv (f32Mant npc.hit_bounds.top 1)
          (if npc.hit_bounds.right = 0 then f32Mant 1 1
           else f32Mant npc.hit_bounds.right 1))) ∧
    ∀ a b c d : Int,
      hardSlopeHorizontal { p with vel_x := a, vel_y := b }
          { npc with vel_x := c, vel_y := d } =
        hardSlopeHorizontal p npc := by
  constructor
  · unfold hardSlopeHorizontal
    dsimp only
    have hx0 : ((f32Mant (p.x - npc.x).natAbs 1).1 = 0) ↔ p.x = npc.x := by
      rw [f32Mant_fst_eq_zero _ _ one_ne_zero, Int.natAbs_eq_zero, sub_eq_zero]
    have hr0 : ((f32Mant npc.hit_bounds.right 1).1 = 0) ↔ npc.hit_bounds.right = 0 :=
      f32Mant_fst_eq_zero _ _ one_ne_zero
    rw [fpairLe_iff]
    by_cases h1 : p.x = npc.x <;> by_cases h2 : npc.hit_bounds.right = 0 <;>
      simp only [hx0, hr0, h1, h2, sub_self, Int.natAbs_zero, f32Mant_zero_fst,
        eq_self_iff_true, if_true, if_false]
  · intro a b c d
    rfl

/-! ## Claim C7 -/

/-- C7: the non-solid judge tests overlap against the NPC's hit half-extents
(the horizontal pair mirrored unless the NPC faces Left) expanded by the
fixed 2-pixel margin `2 * 0x200` on every side, returns only the
touched-signal bit, and never modifies the player. -/
theorem spec_c7_non_solid (p : Player) (npc : NPC) :
    (judgeHitNpcNonSolid p npc).1 = p ∧
    ((judgeHitNpcNonSolid p npc).2.hit_left_wall = true ↔ nonSolidOverlap p npc) ∧
    (judgeHitNpcNonSolid p npc).2.hit_right_wall = false ∧
    (judgeHitNpcNonSolid p npc).2.hit_top_wall = false ∧
    (judgeHitNpcNonSolid p npc).2.hit_bottom_wall = false := by
  unfold judgeHitNpcNonSolid
  by_cases h : nonSolidOverlap p npc <;> simp [h, Flag.zero]

/-! ## Stage lemmas for `tick_npc_collision` -/

theorem damageEvents_append (a b : List Event) :
    damageEvents (a ++ b) = damageEvents a ++ damageEvents b := by
  unfold damageEvents
  exact List.filterMap_append a b _

theorem softStepLeft_meta (npc : NPC) (s : Player × Flag) :
    (softStepLeft npc s).1.flags = s.1.flags ∧
    (softStepLeft npc s).1.life = s.1.life ∧
    (softStepLeft npc s).1.max_life = s.1.max_life ∧
    (softStepLeft npc s).1.stars = s.1.stars ∧
    (softStepLeft npc s).1.cond = s.1.cond ∧
    (softStepLeft npc s).1.question = s.1.question ∧
    (softStepLeft npc s).1.equip = s.1.equip ∧
    (softStepLeft npc s).1.control_mode = s.1.control_mode := by
  unfold softStepLeft
  by_cases h : softLeftCond s.1 npc <;> simp [h]

theorem softStepRight_meta (npc : NPC) (s : Player × Flag) :
    (softStepRight npc s).1.flags = s.1.flags ∧
    (softStepRight npc s).1.life = s.1.life ∧
    (softStepRight npc s).1.max_life = s.1.max_life ∧
    (softStepRight npc s).1.stars = s.1.stars ∧
    (softStepRight npc s).1.cond = s.1.cond ∧
    (softStepRight npc s).1.question = s.1.question ∧
    (softStepRight npc s).1.equip = s.1.equip ∧
    (softStepRight npc s).1.control_mode = s.1.control_mode := by
  unfold softStepRight
  by_cases h : softRightCond s.1 npc <;> simp [h]

theorem softStepTop_meta (npc : NPC) (s : Player × Flag) :
    (softStepTop npc s).1.flags = s.1.flags ∧
    (softStepTop npc s).1.life = s.1.life ∧
    (softStepTop npc s).1.max_life = s.1.max_life ∧
    (softStepTop npc s).1.stars = s.1.stars ∧
    (softStepTop npc s).1.cond = s.1.cond ∧
    (softStepTop npc s).1.question = s.1.question ∧
    (softStepTop npc s).1.equip = s.1.equip ∧
    (softStepTop npc s).1.control_mode = s.1.control_mode := by
  unfold softStepTop
  by_cases h : softTopCond s.1 npc <;> simp [h]

theorem softStepBottom_meta (npc : NPC) (s : Player × Flag) :
    (softStepBottom npc s).1.flags = s.1.flags ∧
    (softStepBottom npc s).1.life = s.1.life ∧
    (softStepBottom npc s).1.max_life = s.1.max_life ∧
    (softStepBottom npc s).1.stars = s.1.stars ∧
    (softStepBottom npc s).1.cond = s.1.cond ∧
    (softStepBottom npc s).1.question = s.1.question ∧
    (softStepBottom npc s).1.equip = s.1.equip ∧
    (softStepBottom npc s).1.control_mode = s.1.control_mode := by
  unfold softStepBottom
  by_cases h : softBottomCond s.1 npc
  · simp only [h, if_true]
    split_ifs <;> simp
  · simp [h]

theorem hardStepLeft_meta (npc : NPC) (s : Player × Flag) :
    (hardStepLeft npc s).1.flags = s.1.flags ∧
    (hardStepLeft npc s).1.life = s.1.life ∧
    (hardStepLeft npc s).1.max_life = s.1.max_life ∧
    (hardStepLeft npc s).1.stars = s.1.stars ∧
    (hardStepLeft npc s).1.cond = s.1.cond ∧
    (hardStepLeft npc s).1.question = s.1.question ∧
    (hardStepLeft npc s).1.equip = s.1.equip ∧
    (hardStepLeft npc s).1.control_mode = s.1.control_mode := by
  unfold hardStepLeft
  by_cases h : hardLeftCond s.1 npc <;> simp [h]

theorem hardStepRight_meta (npc : NPC) (s : Player × Flag) :
    (hardStepRight npc s).1.flags = s.1.flags ∧
    (hardStepRight npc s).1.life = s.1.life ∧
    (hardStepRight npc s).1.max_life = s.1.max_life ∧
    (hardStepRight npc s).1.stars = s.1.stars ∧
    (hardStepRight npc s).1.cond = s.1.cond ∧
    (hardStepRight npc s).1.question = s.1.question ∧
    (hardStepRight npc s).1.equip = s.1.equip ∧
    (hardStepRight npc s).1.control_mode = s.1.control_mode := by
  unfold hardStepRight
  by_cases h : hardRightCond s.1 npc <;> simp [h]

theorem hardStepTop_meta (npc : NPC) (s : Player × Flag) :
    (hardStepTop npc s).1.flags = s.1.flags ∧
    (hardStepTop npc s).1.life = s.1.life ∧
    (hardStepTop npc s).1.max_life = s.1.max_life ∧
    (hardStepTop npc s).1.stars = s.1.stars ∧
    (hardStepTop npc s).1.cond = s.1.cond ∧
    (hardStepTop npc s).1.question = s.1.question ∧
    (hardStepTop npc s).1.equip = s.1.equip ∧
    (hardStepTop npc s).1.control_mode = s.1.control_mode := by
  unfold hardStepTop
  by_cases h : hardTopCond s.1 npc
  · simp only [h, if_true]
    split_ifs <;> simp
  · simp [h]

theorem hardStepBottom_meta (npc : NPC) (s : Player × Flag) :
    (hardStepBottom npc s).1.flags = s.1.flags ∧
    (hardStepBottom npc s).1.life = s.1.life ∧
    (hardStepBottom npc s).1.max_life = s.1.max_life ∧
    (hardStepBottom npc s).1.stars = s.1.stars ∧
    (hardStepBottom npc s).1.cond = s.1.cond ∧
    (hardStepBottom npc s).1.question = s.1.question ∧
    (hardStepBottom npc s).1.equip = s.1.equip ∧
    (hardStepBottom npc s).1.control_mode = s.1.control_mode := by
  unfold hardStepBottom
  dsimp only
  split_ifs <;> simp

theorem hardStepBottom_events (npc : NPC) (s : Player × Flag) :
    damageEvents (hardStepBottom npc s).2.2 = [] := by
  unfold hardStepBottom
  dsimp only
  split_ifs <;> simp [damageEvents]

theorem judgeSoft_meta (p : Player) (npc : NPC) :
    (judgeHitNpcSolidSoft p npc).1.flags = p.flags ∧
    (judgeHitNpcSolidSoft p npc).1.life = p.life ∧
    (judgeHitNpcSolidSoft p npc).1.max_life = p.max_life ∧
    (judgeHitNpcSolidSoft p npc).1.stars = p.stars ∧
    (judgeHitNpcSolidSoft p npc).1.cond = p.cond ∧
    (judgeHitNpcSolidSoft p npc).1.question = p.question ∧
    (judgeHitNpcSolidSoft p npc).1.equip = p.equip ∧
    (judgeHitNpcSolidSoft p npc).1.control_mode = p.control_mode := by
  obtain ⟨a1, a2, a3, a4, a5, a6, a7, a8⟩ := softStepLeft_meta npc (p, Flag.zero)
  obtain ⟨b1, b2, b3, b4, b5, b6, b7, b8⟩ :=
    softStepRight_meta npc (softStepLeft npc (p, Flag.zero))
  obtain ⟨c1, c2, c3, c4, c5, c6, c7, c8⟩ :=
    softStepTop_meta npc (softStepRight npc (softStepLeft npc (p, Flag.zero)))
  obtain ⟨d1, d2, d3, d4, d5, d6, d7, d8⟩ :=
    softStepBottom_meta npc
      (softStepTop npc (softStepRight npc (softStepLeft npc (p, Flag.zero))))
  unfold judgeHitNpcSolidSoft
  exact ⟨by rw [d1, c1, b1, a1], by rw [d2, c2, b2, a2], by rw [d3, c3, b3, a3],
    by rw [d4, c4, b4, a4], by rw [d5, c5, b5, a5], by rw [d6, c6, b6, a6],
    by rw [d7, c7, b7, a7], by rw [d8, c8, b8, a8]⟩

theorem judgeHard_meta (p : Player) (npc : NPC) :
    (judgeHitNpcSolidHard p npc).1.flags = p.flags ∧
    (judgeHitNpcSolidHard p npc).1.life = p.life ∧
    (judgeHitNpcSolidHard p npc).1.max_life = p.max_life ∧
    (judgeHitNpcSolidHard p npc).1.stars = p.stars ∧
    (judgeHitNpcSolidHard p npc).1.cond = p.cond ∧
    (judgeHitNpcSolidHard p npc).1.question = p.question ∧
    (judgeHitNpcSolidHard p npc).1.equip = p.equip ∧
    (judgeHitNpcSolidHard p npc).1.control_mode = p.control_mode := by
  unfold judgeHitNpcSolidHard
  by_cases h1 : hardSlopeHorizontal p npc = true
  · rw [if_pos h1]
    by_cases h2 : hardYOverlap p npc
    · rw [if_pos h2]
      obtain ⟨a1, a2, a3, a4, a5, a6, a7, a8⟩ := hardStepLeft_meta npc (p, Flag.zero)
      obtain ⟨b1, b2, b3, b4, b5, b6, b7, b8⟩ :=
        hardStepRight_meta npc (hardStepLeft npc (p, Flag.zero))
      exact ⟨by rw [b1, a1], by rw [b2, a2], by rw [b3, a3], by rw [b4, a4],
        by rw [b5, a5], by rw [b6, a6], by rw [b7, a7], by rw [b8, a8]⟩
    · rw [if_neg h2]
      exact ⟨rfl, rfl, rfl, rfl, rfl, rfl, rfl, rfl⟩
  · rw [if_neg h1]
    by_cases h3 : hardXOverlap p npc
    · rw [if_pos h3]
      obtain ⟨a1, a2, a3, a4, a5, a6, a7, a8⟩ := hardStepTop_meta npc (p, Flag.zero)
      obtain ⟨b1, b2, b3, b4, b5, b6, b7, b8⟩ :=
        hardStepBottom_meta npc (hardStepTop npc (p, Flag.zero))
      exact ⟨by rw [b1, a1], by rw [b2, a2], by rw [b3, a3], by rw [b4, a4],
        by rw [b5, a5], by rw [b6, a6], by rw [b7, a7], by rw [b8, a8]⟩
    · rw [if_neg h3]
      exact ⟨rfl, rfl, rfl, rfl, rfl, rfl, rfl, rfl⟩

theorem judgeHard_no_damage (p : Player) (npc : NPC) :
    damageEvents (judgeHitNpcSolidHard p npc).2.2 = [] := by
  unfold judgeHitNpcSolidHard
  by_cases h1 : hardSlopeHorizontal p npc = true
  · rw [if_pos h1]
    by_cases h2 : hardYOverlap p npc
    · rw [if_pos h2]; rfl
    · rw [if_neg h2]; rfl
  · rw [if_neg h1]
    by_cases h3 : hardXOverlap p npc
    · rw [if_pos h3]
      exact hardStepBottom_events npc (hardStepTop npc (p, Flag.zero))
    · rw [if_neg h3]; rfl

theorem collisionStage_meta (p : Player) (npc : NPC) :
    (collisionStage p npc).1.life = p.life ∧
    (collisionStage p npc).1.max_life = p.max_life ∧
    (collisionStage p npc).1.stars = p.stars ∧
    (collisionStage p npc).1.cond = p.cond ∧
    (collisionStage p npc).1.question = p.question ∧
    (collisionStage p npc).1.equip = p.equip ∧
    (collisionStage p npc).1.control_mode = p.control_mode := by
  unfold collisionStage
  dsimp only
  by_cases h1 : npc.npc_flags.solid_soft = true
  · rw [if_pos h1]
    obtain ⟨-, m2, m3, m4, m5, m6, m7, m8⟩ := judgeSoft_meta p npc
    exact ⟨m2, m3, m4, m5, m6, m7, m8⟩
  · rw [if_neg h1]
    by_cases h2 : npc.npc_flags.solid_hard = true
    · rw [if_pos h2]
      obtain ⟨-, m2, m3, m4, m5, m6, m7, m8⟩ := judgeHard_meta p npc
      exact ⟨m2, m3, m4, m5, m6, m7, m8⟩
    · rw [if_neg h2]
      exact ⟨rfl, rfl, rfl, rfl, rfl, rfl, rfl⟩

theorem collisionStage_flags (p : Player) (npc : NPC) :
    (collisionStage p npc).1.flags =
      if npc.npc_flags.solid_soft || npc.npc_flags.solid_hard then
        Flag.or p.flags (collisionFlags p npc)
      else p.flags := by
  unfold collisionFlags collisionStage
  dsimp only
  by_cases h1 : npc.npc_flags.solid_soft = true
  · rw [if_pos h1]
    simp only [h1, Bool.true_or, if_true]
    rw [(judgeSoft_meta p npc).1]
  · rw [if_neg h1]
    by_cases h2 : npc.npc_flags.solid_hard = true
    · rw [if_pos h2]
      simp only [h1, h2, Bool.or_true, if_true]
      rw [(judgeHard_meta p npc).1]
    · rw [if_neg h2]
      simp only [Bool.eq_false_iff.mpr h1, Bool.eq_false_iff.mpr h2]
      simp only [Bool.or_self, Bool.false_eq_true, if_false]
      rfl

theorem collisionStage_no_damage (p : Player) (npc : NPC) :
    damageEvents (collisionStage p npc).2.2 = [] := by
  unfold collisionStage
  dsimp only
  by_cases h1 : npc.npc_flags.solid_soft = true
  · rw [if_pos h1]; rfl
  · rw [if_neg h1]
    by_cases h2 : npc.npc_flags.solid_hard = true
    · rw [if_pos h2]
      exact judgeHard_no_damage p npc
    · rw [if_neg h2]; rfl

theorem pickupStage_flags (p : Player) (npc : NPC) (inv : Inventory) (fl : Flag) :
    (pickupStage p npc inv fl).1.flags = p.flags := by
  unfold pickupStage
  dsimp only
  rcases h : (inv.add_xp npc.exp).2 <;> simp only [h] <;> split_ifs <;> simp

theorem pickupStage_npc_fields (p : Player) (npc : NPC) (inv : Inventory) (fl : Flag) :
    (pickupStage p npc inv fl).2.1.vel_x = npc.vel_x ∧
    (pickupStage p npc inv fl).2.1.vel_y = npc.vel_y ∧
    (pickupStage p npc inv fl).2.1.npc_flags = npc.npc_flags ∧
    (pickupStage p npc inv fl).2.1.damage = npc.damage := by
  unfold pickupStage
  dsimp only
  split_ifs <;> simp

theorem pickupStage_no_damage (p : Player) (npc : NPC) (inv : Inventory) (fl : Flag) :
    damageEvents (pickupStage p npc inv fl).2.2.2 = [] := by
  unfold pickupStage
  dsimp only
  rcases h : (inv.add_xp npc.exp).2 <;> simp only [h] <;> split_ifs <;>
    simp [damageEvents]

theorem interactStage_player (id : Nat) (p : Player) (npc : NPC) (ctx : CollisionCtx)
    (fl : Flag) :
    (interactStage id p npc ctx fl).1.flags = p.flags ∧
    (interactStage id p npc ctx fl).1.life = p.life ∧
    (interactStage id p npc ctx fl).1.max_life = p.max_life ∧
    (interactStage id p npc ctx fl).1.stars = p.stars := by
  unfold interactStage
  split_ifs <;> simp

theorem interactStage_ctx (id : Nat) (p : Player) (npc : NPC) (ctx : CollisionCtx)
    (fl : Flag) :
    (interactStage id p npc ctx fl).2.1.control_enabled = ctx.control_enabled := by
  unfold interactStage
  split_ifs <;> simp

theorem interactStage_no_damage (id : Nat) (p : Player) (npc : NPC) (ctx : CollisionCtx)
    (fl : Flag) :
    damageEvents (interactStage id p npc ctx fl).2.2 = [] := by
  unfold interactStage
  split_ifs <;> simp [damageEvents]

theorem touchEventStage_ctx (id : Nat) (npc : NPC) (ctx : CollisionCtx) (fl : Flag) :
    (touchEventStage id npc ctx fl).1.control_enabled = ctx.control_enabled := by
  unfold touchEventStage
  split_ifs <;> simp

theorem touchEventStage_no_damage (id : Nat) (npc : NPC) (ctx : CollisionCtx) (fl : Flag) :
    damageEvents (touchEventStage id npc ctx fl).2 = [] := by
  unfold touchEventStage
  split_ifs <;> simp [damageEvents]

theorem damageStage_player (p : Player) (npc : NPC) (ctx : CollisionCtx) (fl : Flag) :
    (damageStage p npc ctx fl).1.flags = p.flags ∧
    (damageStage p npc ctx fl).1.stars = p.stars ∧
    (damageStage p npc ctx fl).1.max_life = p.max_life ∧
    (damageStage p npc ctx fl).1.life ≤ p.life ∧
    (npc.damage = 0 → (damageStage p npc ctx fl).1.life = p.life) := by
  unfold damageStage playerDamage
  split_ifs <;> simp <;> omega

theorem damageStage_rear (p : Player) (npc : NPC) (ctx : CollisionCtx) (fl : Flag)
    (h1 : ctx.control_enabled = true) (h2 : npc.npc_flags.interactable = false)
    (h3 : npc.npc_flags.rear_and_top_not_hurt = true) :
    (damageStage p npc ctx fl).2 =
      if frontalContact fl npc then [Event.damage npc.damage] else [] := by
  unfold damageStage playerDamage
  simp only [h1, h2, h3, Bool.not_false, Bool.and_self, if_true]
  split_ifs <;> rfl

/-! ## Claim C2 -/

/-- C2: with control enabled, against a non-interactable NPC flagged
rear-and-top-not-hurt, one `tick_npc_collision` call applies exactly one
damage hit of `npc.damage` when the contact side opposes the sign of the
NPC's own velocity on that axis (the player rammed the actor's front), and
no damage at all otherwise (contact from behind, or on the actor's rear or
top). -/
theorem spec_c2_rear_front_damage (id : Nat) (p : Player) (npc : NPC)
    (ctx : CollisionCtx) (inv : Inventory)
    (h1 : ctx.control_enabled = true) (h2 : npc.npc_flags.interactable = false)
    (h3 : npc.npc_flags.rear_and_top_not_hurt = true) (h4 : npc.damage ≠ 0) :
    damageEvents (tickNpcCollision id p npc ctx inv).events =
      if frontalContact (collisionFlags p npc) npc then [npc.damage] else [] := by
  unfold tickNpcCollision
  dsimp only
  rw [damageEvents_append, damageEvents_append, damageEvents_append, damageEvents_append]
  rw [collisionStage_no_damage, pickupStage_no_damage, interactStage_no_damage,
    touchEventStage_no_damage]
  obtain ⟨nvx, nvy, nfl, nd⟩ :=
    pickupStage_npc_fields (collisionStage p npc).1 npc inv (collisionStage p npc).2.1
  rw [damageStage_rear _ _ _ _
    (by rw [touchEventStage_ctx, interactStage_ctx, h1])
    (by rw [nfl]; exact h2) (by rw [nfl]; exact h3)]
  have hfc : frontalContact (collisionStage p npc).2.1
      (pickupStage (collisionStage p npc).1 npc inv (collisionStage p npc).2.1).2.1 =
      frontalContact (collisionFlags p npc) npc := by
    unfold frontalContact collisionFlags
    rw [nvx, nvy]
  rw [hfc, nd]
  split_ifs <;> simp [damageEvents]

/-- C2, witness: the theorem applied at a concrete frontal ram of a
rightward-moving rear-and-top-not-hurt actor with contact damage 5. -/
theorem spec_c2_witness :
    damageEvents (tickNpcCollision 0 basePlayer cexNpcC2 ctxOn inv0).events = [5] := by
  rw [spec_c2_rear_front_damage 0 basePlayer cexNpcC2 ctxOn inv0 rfl rfl rfl
    (by decide)]
  decide

/-! ## Claim C10 -/

/-- C10: `tick_npc_collision` ORs the flag-result of a solid-soft or
solid-hard judgment into the player's persistent flags, while a non-solid
judgment's flag-result is never merged: the player's flags field is left
unchanged by a non-solid touch. -/
theorem spec_c10_flag_merge (id : Nat) (p : Player) (npc : NPC) (ctx : CollisionCtx)
    (inv : Inventory) :
    (tickNpcCollision id p npc ctx inv).player.flags =
      if npc.npc_flags.solid_soft || npc.npc_flags.solid_hard then
        Flag.or p.flags (collisionFlags p npc)
      else p.flags := by
  unfold tickNpcCollision
  dsimp only
  rw [(damageStage_player _ _ _ _).1, (interactStage_player _ _ _ _ _).1,
    pickupStage_flags, collisionStage_flags]

/-! ## Claims C6 and C8: pickup dispatch -/

theorem add_xp_fst (inv : Inventory) (n : Nat) :
    (inv.add_xp n).1 = { inv with xp := inv.xp + n } := by
  unfold Inventory.add_xp
  dsimp only
  split_ifs <;> rfl

theorem pickupStage_type1_props (p : Player) (npc : NPC) (inv : Inventory) (fl : Flag)
    (hdrs : npc.cond.drs_boss = false) (ht : npc.npc_type = 1)
    (hfl : Flag.any fl = true) :
    (pickupStage p npc inv fl).2.2.1 = (inv.add_xp npc.exp).1 ∧
    (pickupStage p npc inv fl).2.1.cond.alive = false ∧
    Event.playSfx 14 ∈ (pickupStage p npc inv fl).2.2.2 ∧
    ((inv.add_xp npc.exp).2 = AddExperienceResult.levelUp →
      Event.playSfx 27 ∈ (pickupStage p npc inv fl).2.2.2 ∧
      Event.createCaret p.x p.y CaretType.levelUp Direction.left ∈
        (pickupStage p npc inv fl).2.2.2) ∧
    ((inv.add_xp npc.exp).2 = AddExperienceResult.addStar →
      (pickupStage p npc inv fl).1.stars =
        if p.equip.has_whimsical_star = true ∧ p.stars < 3 then p.stars + 1
        else p.stars) := by
  unfold pickupStage
  dsimp only
  simp only [hdrs, hfl, ht, Bool.not_false, Bool.and_self, if_true]
  rcases h : (inv.add_xp npc.exp).2 <;> simp [h] <;> split_ifs <;> simp

theorem pickupStage_type87 (p : Player) (npc : NPC) (inv : Inventory) (fl : Flag)
    (hdrs : npc.cond.drs_boss = false) (ht : npc.npc_type = 87)
    (hfl : Flag.any fl = true) :
    (pickupStage p npc inv fl).1.life = min p.max_life (u16SatAdd p.life npc.exp) ∧
    (pickupStage p npc inv fl).1.max_life = p.max_life ∧
    (pickupStage p npc inv fl).2.1.cond.alive = false ∧
    (pickupStage p npc inv fl).2.1.damage = npc.damage := by
  unfold pickupStage
  dsimp only
  simp only [hdrs, hfl, ht, Bool.not_false, Bool.and_self, if_true]
  norm_num

/-- C6, counterexample: an alive type-1 experience pickup whose
`damage_boss` condition bit is clear but whose `drs_boss` (boss-shielded)
bit is set produces a nonzero flag-result yet none of the claimed effects:
no sound effect 14 is played, the inventory is untouched and the NPC stays
alive — the dispatch gate reads `drs_boss`, not `damage_boss`. -/
theorem spec_c6_counterexample :
    cexNpcC6drs.npc_type = 1 ∧ cexNpcC6drs.cond.alive = true ∧
    cexNpcC6drs.cond.damage_boss = false ∧
    Flag.any (collisionFlags basePlayer cexNpcC6drs) = true ∧
    Event.playSfx 14 ∉ (tickNpcCollision 0 basePlayer cexNpcC6drs ctxOn inv0).events ∧
    (tickNpcCollision 0 basePlayer cexNpcC6drs ctxOn inv0).npc.cond.alive = true ∧
    (tickNpcCollision 0 basePlayer cexNpcC6drs ctxOn inv0).inv = inv0 := by
  decide

/-- C6, amended: when the collision judgment returns a nonzero flag-result
against an alive NPC of type 1 whose `drs_boss` (boss-shielded) condition
bit is clear, the call plays sound effect 14, feeds `npc.exp` to
`Inventory::add_xp`, clears the NPC's alive bit, emits the level-up sound
27 and a LevelUp caret when the threshold is crossed, and on a star grant
increments the player's stars only below the cap 3 and only with the
whimsical star equipped. -/
theorem spec_c6_exp_pickup (id : Nat) (p : Player) (npc : NPC) (ctx : CollisionCtx)
    (inv : Inventory)
    (hdrs : npc.cond.drs_boss = false) (ht : npc.npc_type = 1)
    (halive : npc.cond.alive = true)
    (hfl : Flag.any (collisionFlags p npc) = true) :
    Event.playSfx 14 ∈ (tickNpcCollision id p npc ctx inv).events ∧
    (tickNpcCollision id p npc ctx inv).inv = (inv.add_xp npc.exp).1 ∧
    (tickNpcCollision id p npc ctx inv).inv.xp = inv.xp + npc.exp ∧
    (tickNpcCollision id p npc ctx inv).npc.cond.alive = false ∧
    ((inv.add_xp npc.exp).2 = AddExperienceResult.levelUp →
      Event.playSfx 27 ∈ (tickNpcCollision id p npc ctx inv).events ∧
      ∃ cx cy, Event.createCaret cx cy CaretType.levelUp Direction.left ∈
        (tickNpcCollision id p npc ctx inv).events) ∧
    ((inv.add_xp npc.exp).2 = AddExperienceResult.addStar →
      (tickNpcCollision id p npc ctx inv).player.stars =
        if p.equip.has_whimsical_star = true ∧ p.stars < 3 then p.stars + 1
        else p.stars) := by
  obtain ⟨-, -, mst, -, -, meq, -⟩ := collisionStage_meta p npc
  obtain ⟨i1, i2, pm, plu, pst⟩ :=
    pickupStage_type1_props (collisionStage p npc).1 npc inv
      (collisionStage p npc).2.1 hdrs ht hfl
  unfold tickNpcCollision
  dsimp only
  refine ⟨?_, ?_, ?_, ?_, ?_, ?_⟩
  · simp only [List.mem_append]
    exact Or.inl (Or.inl (Or.inl (Or.inr pm)))
  · exact i1
  · rw [i1, add_xp_fst]
  · exact i2
  · intro hlv
    obtain ⟨h27, hcar⟩ := plu hlv
    constructor
    · simp only [List.mem_append]
      exact Or.inl (Or.inl (Or.inl (Or.inr h27)))
    · refine ⟨(collisionStage p npc).1.x, (collisionStage p npc).1.y, ?_⟩
      simp only [List.mem_append]
      exact Or.inl (Or.inl (Or.inl (Or.inr hcar)))
  · intro hst
    rw [(damageStage_player _ _ _ _).2.1, (interactStage_player _ _ _ _ _).2.2.2]
    rw [pst hst, meq, mst]

/-- C6, witness: the amended theorem applied at a concrete experience
pickup overlapping the player in the non-solid regime. -/
theorem spec_c6_witness :
    Event.playSfx 14 ∈ (tickNpcCollision 0 basePlayer cexNpcC6 ctxOn inv0).events ∧
    (tickNpcCollision 0 basePlayer cexNpcC6 ctxOn inv0).inv.xp =
      inv0.xp + cexNpcC6.exp ∧
    (tickNpcCollision 0 basePlayer cexNpcC6 ctxOn inv0).npc.cond.alive = false := by
  obtain ⟨hm, -, hxp, hal, -, -⟩ :=
    spec_c6_exp_pickup 0 basePlayer cexNpcC6 ctxOn inv0 rfl rfl rfl (by decide)
  exact ⟨hm, hxp, hal⟩

/-- C8: on a heart-pickup collision (type 87) the player's life becomes
`min(max_life, life saturating+ exp)`: the addition clamps at the u16
ceiling instead of wrapping, the result never exceeds `max_life`, and (when
the pickup carries no contact damage) the final life of the whole call is
exactly that value. -/
theorem spec_c8_heart_saturation (id : Nat) (p : Player) (npc : NPC)
    (ctx : CollisionCtx) (inv : Inventory)
    (ht : npc.npc_type = 87) (hdrs : npc.cond.drs_boss = false)
    (hfl : Flag.any (collisionFlags p npc) = true) :
    (npc.damage = 0 →
      (tickNpcCollision id p npc ctx inv).player.life =
        min p.max_life (u16SatAdd p.life npc.exp)) ∧
    (tickNpcCollision id p npc ctx inv).player.life ≤ p.max_life ∧
    u16SatAdd p.life npc.exp = min (p.life + npc.exp) 65535 := by
  obtain ⟨ml, mml, -, -, -, -, -⟩ := collisionStage_meta p npc
  obtain ⟨h87l, h87m, -, h87d⟩ :=
    pickupStage_type87 (collisionStage p npc).1 npc inv
      (collisionStage p npc).2.1 hdrs ht hfl
  rw [ml, mml] at h87l
  unfold tickNpcCollision
  dsimp only
  constructor
  · intro h0
    have hd0 : (pickupStage (collisionStage p npc).1 npc inv
        (collisionStage p npc).2.1).2.1.damage = 0 := by rw [h87d]; exact h0
    rw [(damageStage_player _ _ _ _).2.2.2.2 hd0]
    rw [(interactStage_player _ _ _ _ _).2.1, h87l]
  · constructor
    · refine le_trans (damageStage_player _ _ _ _).2.2.2.1 ?_
      rw [(interactStage_player _ _ _ _ _).2.1, h87l]
      exact min_le_left _ _
    · rfl

/-- C8, witness: the theorem applied at a concrete heart pickup (exp 10) for
a player at 10 of 20 max life; the result is the full 20, reached without
wrapping. -/
theorem spec_c8_witness :
    (tickNpcCollision 0 basePlayer cexNpcC8 ctxOn inv0).player.life =
      min basePlayer.max_life (u16SatAdd basePlayer.life cexNpcC8.exp) ∧
    (tickNpcCollision 0 basePlayer cexNpcC8 ctxOn inv0).player.life ≤
      basePlayer.max_life := by
  obtain ⟨he, hle, -⟩ :=
    spec_c8_heart_saturation 0 basePlayer cexNpcC8 ctxOn inv0 rfl rfl (by decide)
  exact ⟨he rfl, hle⟩

/-! ## Booster and Balfrog tick lemmas -/

theorem boosterMachine_vel_y (draw : Int) (s : Booster) :
    (boosterMachine draw s).vel_y = s.vel_y := by
  unfold boosterMachine
  dsimp only
  split_ifs <;> simp [animate]

theorem boosterTick_phys (tbl : Nat → Rect) (draw : Int) (s : Booster) :
    (boosterTick tbl draw s).vel_y = (boosterMachine draw s).vel_y + 0x40 ∧
    (boosterTick tbl draw s).y =
      (boosterMachine draw s).y + ((boosterMachine draw s).vel_y + 0x40) := by
  unfold boosterTick
  dsimp only
  split_ifs <;> exact ⟨rfl, rfl⟩

theorem balfrogAttach_p0 (s : Balfrog) : (balfrogAttach s).p0 = s.p0 := by
  unfold balfrogAttach
  dsimp only
  split_ifs <;> rfl

theorem balfrogPhysics_p0 (tbl : Nat → Rect) (t : Balfrog) :
    (balfrogPhysics tbl t).p0.vel_y = min (t.p0.vel_y + 0x40) 0x5ff ∧
    (balfrogPhysics tbl t).p0.y = t.p0.y + min (t.p0.vel_y + 0x40) 0x5ff := by
  unfold balfrogPhysics
  dsimp only
  constructor <;> split_ifs <;> omega

theorem stepB02_p0_eq (tbl : Nat → Rect) (px : Int) (s : Balfrog) :
    (stepB02 tbl px s).p0.action_num = (balfrogMachine tbl px s).1.p0.action_num ∧
    (stepB02 tbl px s).p0.action_counter =
      (balfrogMachine tbl px s).1.p0.action_counter ∧
    (stepB02 tbl px s).p0.vel_x = (balfrogMachine tbl px s).1.p0.vel_x := by
  unfold stepB02 tickB02
  dsimp only
  rw [balfrogAttach_p0]
  exact ⟨rfl, rfl, rfl⟩

theorem balfrogMachine_100 (tbl : Nat → Rect) (px : Int) (s : Balfrog)
    (h : s.p0.action_num = 100) :
    (balfrogMachine tbl px s).1.p0.action_num = 101 ∧
    (balfrogMachine tbl px s).1.p0.action_counter = 1 := by
  unfold balfrogMachine
  dsimp only
  rw [h]
  norm_num [inc16]

theorem balfrogMachine_101 (tbl : Nat → Rect) (px : Int) (s : Balfrog)
    (h : s.p0.action_num = 101) :
    (balfrogMachine tbl px s).1.p0.action_num =
      (if inc16 s.p0.action_counter > 50 then 102 else 101) ∧
    (balfrogMachine tbl px s).1.p0.action_counter = inc16 s.p0.action_counter := by
  unfold balfrogMachine
  dsimp only
  rw [h]
  norm_num
  split_ifs <;> simp [h]

theorem balfrogMachine_111_velx (tbl : Nat → Rect) (px : Int) (s : Balfrog)
    (h : s.p0.action_num = 111) :
    (balfrogMachine tbl px s).1.p0.vel_x = Int.tdiv (s.p0.vel_x * 8) 9 := by
  unfold balfrogMachine
  dsimp only
  rw [h]
  norm_num
  split_ifs <;> rfl

theorem balfrogMachine_113_velx (tbl : Nat → Rect) (px : Int) (s : Balfrog)
    (h : s.p0.action_num = 113) :
    (balfrogMachine tbl px s).1.p0.vel_x = Int.tdiv (s.p0.vel_x * 10) 11 := by
  unfold balfrogMachine
  dsimp only
  rw [h]
  norm_num
  split_ifs <;> rfl

theorem tdiv_eq_truncDivSpec (a b : Int) : Int.tdiv a b = truncDivSpec a b := by
  rcases a with (_ | m) | m <;> rcases b with (_ | n) | n <;>
    simp [Int.tdiv, truncDivSpec, Int.sign, Nat.succ_eq_add_one, Nat.div_zero,
      Nat.zero_div] <;>
    rfl

/-! ## Claim C4 -/

/-- C4, counterexample: `tick_n113_professor_booster` applies the +0x40
vertical acceleration but never clamps to the terminal velocity 0x5ff: a
booster already at 0x5ff leaves the tick at 0x63f and integrates that
unclamped velocity into its position. -/
theorem spec_c4_counterexample :
    cexBoosterC4.vel_y = 0x5ff ∧
    (boosterTick tbl0 0 cexBoosterC4).vel_y = 0x63f ∧
    0x5ff < (boosterTick tbl0 0 cexBoosterC4).vel_y ∧
    (boosterTick tbl0 0 cexBoosterC4).y = cexBoosterC4.y + 0x63f := by
  decide

/-- C4, amended: both tick functions apply the vertical acceleration +0x40
to `vel_y` exactly once per step, in every action code, before integrating
`vel_y` into the position; the Balfrog driver clamps the result to the
terminal velocity 0x5ff before integrating, but the professor-booster tick
integrates without any terminal-velocity clamp. -/
theorem spec_c4_gravity (tbl : Nat → Rect) (draw : Int) (s : Booster) (px : Int)
    (b : Balfrog) :
    (boosterTick tbl draw s).vel_y = s.vel_y + 0x40 ∧
    (boosterTick tbl draw s).y = (boosterMachine draw s).y + (s.vel_y + 0x40) ∧
    (stepB02 tbl px b).p0.vel_y =
      min ((balfrogMachine tbl px b).1.p0.vel_y + 0x40) 0x5ff ∧
    (stepB02 tbl px b).p0.y = (balfrogMachine tbl px b).1.p0.y +
      min ((balfrogMachine tbl px b).1.p0.vel_y + 0x40) 0x5ff := by
  obtain ⟨bv, by'⟩ := boosterTick_phys tbl draw s
  have hm := boosterMachine_vel_y draw s
  have hao : (stepB02 tbl px b).p0 = (balfrogPhysics tbl (balfrogMachine tbl px b).1).p0 := by
    unfold stepB02 tickB02
    dsimp only
    rw [balfrogAttach_p0]
  obtain ⟨pv, py⟩ := balfrogPhysics_p0 tbl (balfrogMachine tbl px b).1
  refine ⟨?_, ?_, ?_, ?_⟩
  · rw [bv, hm]
  · rw [by', hm]
  · rw [hao, pv]
  · rw [hao, py]

/-! ## Claim C5 -/

/-- C5: a Balfrog driver entering the enter-stomp code 100 settles to 101
with its counter reset, increments the counter once per tick, and first
transitions to 102 on the 51st tick after entry: after 50 ticks it is still
in 101 with counter 50, and after 51 ticks it is in 102. -/
theorem spec_c5_stomp_timer (tbl : Nat → Rect) (px : Int) (s : Balfrog)
    (h : s.p0.action_num = 100) :
    (∀ k, 1 ≤ k → k ≤ 50 →
      ((stepB02 tbl px)^[k] s).p0.action_num = 101 ∧
      ((stepB02 tbl px)^[k] s).p0.action_counter = k) ∧
    ((stepB02 tbl px)^[51] s).p0.action_num = 102 ∧
    ((stepB02 tbl px)^[51] s).p0.action_counter = 51 := by
  have hstep : ∀ t : Balfrog, t.p0.action_num = 101 → t.p0.action_counter ≤ 50 →
      (stepB02 tbl px t).p0.action_num =
        (if t.p0.action_counter + 1 > 50 then 102 else 101) ∧
      (stepB02 tbl px t).p0.action_counter = t.p0.action_counter + 1 := by
    intro t ht hc
    obtain ⟨e1, e2, -⟩ := stepB02_p0_eq tbl px t
    obtain ⟨m1, m2⟩ := balfrogMachine_101 tbl px t ht
    have hinc : inc16 t.p0.action_counter = t.p0.action_counter + 1 := by
      unfold inc16; omega
    rw [hinc] at m1 m2
    exact ⟨by rw [e1, m1], by rw [e2, m2]⟩
  have hbase : (stepB02 tbl px s).p0.action_num = 101 ∧
      (stepB02 tbl px s).p0.action_counter = 1 := by
    obtain ⟨e1, e2, -⟩ := stepB02_p0_eq tbl px s
    obtain ⟨m1, m2⟩ := balfrogMachine_100 tbl px s h
    exact ⟨by rw [e1, m1], by rw [e2, m2]⟩
  have main : ∀ k, 1 ≤ k → k ≤ 50 →
      ((stepB02 tbl px)^[k] s).p0.action_num = 101 ∧
      ((stepB02 tbl px)^[k] s).p0.action_counter = k := by
    intro k
    induction k with
    | zero => intro h1 _; exact absurd h1 (by norm_num)
    | succ n ih =>
      intro _ hle
      by_cases hn : n = 0
      · subst hn
        simpa [Function.iterate_one] using hbase
      · obtain ⟨ha, hc⟩ := ih (by omega) (by omega)
        rw [Function.iterate_succ_apply']
        obtain ⟨sa, sc⟩ := hstep _ ha (by omega)
        rw [hc] at sa sc
        exact ⟨by rw [sa, if_neg (by omega)], sc⟩
  refine ⟨main, ?_, ?_⟩
  · obtain ⟨ha, hc⟩ := main 50 (by norm_num) (by norm_num)
    rw [show (51 : Nat) = 50 + 1 from rfl, Function.iterate_succ_apply']
    obtain ⟨sa, -⟩ := hstep _ ha (by omega)
    rw [hc] at sa
    rw [sa, if_pos (by omega)]
  · obtain ⟨ha, hc⟩ := main 50 (by norm_num) (by norm_num)
    rw [show (51 : Nat) = 50 + 1 from rfl, Function.iterate_succ_apply']
    obtain ⟨-, sc⟩ := hstep _ ha (by omega)
    rw [hc] at sc
    exact sc

/-- C5, witness: the theorem applied at a concrete driver entering code 100;
the transition to 102 has fired after exactly 51 ticks. -/
theorem spec_c5_witness :
    ((stepB02 tbl0 0)^[51] balfrogB100).p0.action_num = 102 ∧
    ((stepB02 tbl0 0)^[50] balfrogB100).p0.action_num = 101 := by
  obtain ⟨main, h102, -⟩ := spec_c5_stomp_timer tbl0 0 balfrogB100 rfl
  exact ⟨h102, (main 50 (by norm_num) (by norm_num)).1⟩

/-! ## Claim C9 -/

/-- C9: the Balfrog driver's velocity-decay steps are exactly truncating
integer division: in action code 111 the step ends with
`vel_x = (v * 8) / 9` and in code 113 with `vel_x = (v * 10) / 11`, where
the division divides the magnitudes and reattaches the sign — truncation
toward zero, not rounding, not floor for negative operands. -/
theorem spec_c9_velocity_decay (tbl : Nat → Rect) (px : Int) (s : Balfrog) :
    (s.p0.action_num = 111 →
      (stepB02 tbl px s).p0.vel_x = truncDivSpec (s.p0.vel_x * 8) 9) ∧
    (s.p0.action_num = 113 →
      (stepB02 tbl px s).p0.vel_x = truncDivSpec (s.p0.vel_x * 10) 11) := by
  obtain ⟨-, -, e3⟩ := stepB02_p0_eq tbl px s
  constructor
  · intro h
    rw [e3, balfrogMachine_111_velx tbl px s h, tdiv_eq_truncDivSpec]
  · intro h
    rw [e3, balfrogMachine_113_velx tbl px s h, tdiv_eq_truncDivSpec]

/-- C9, witness: the theorem applied in code 111 at `vel_x = -100`:
`(-800) / 9` truncates toward zero to `-88` (floor division would give
`-89`). -/
theorem spec_c9_witness :
    (stepB02 tbl0 0 balfrogB111).p0.vel_x = truncDivSpec (-100 * 8) 9 ∧
    truncDivSpec (-100 * 8) 9 = -88 :=
  ⟨(spec_c9_velocity_decay tbl0 0 balfrogB111).1 rfl, by decide⟩

end D2
